import Mathlib

/-!
Verification development for the data-freshness engine of the
`tibber_prices` Home Assistant integration.

The definitions below are a shallow embedding, translated function by
function, of:
  * `custom_components/tibber_prices/helpers/cache_validation.py`
    (`validate_cache_structure`, `check_for_stale_cache`),
  * `custom_components/tibber_prices/helpers/midnight_transition.py`
    (`check_for_missed_midnight_transition`, `perform_midnight_rotation`),
  * `custom_components/tibber_prices/helpers/data_validation.py`
    (`is_dst_transition_day`, `is_spring_forward`,
    `validate_dst_transition_data`),
  * `custom_components/tibber_prices/coordinator.py`
    (`current_api_state`, `_is_missing_today_data`,
    `_should_check_in_waiting_state`, `_should_check_in_searching_state`,
    `_should_fetch_data`, `_check_tomorrow_data`'s availability
    recomputation, `_process_price_info`, `_process_price_rating`,
    `_fetch_basic_data`, `_fetch_price_ratings` and `_async_update_data`).

Modelling conventions:
  * Python `datetime` values are modelled by `LocalDateTime` (a local
    calendar day number plus minute-of-day); time differences are taken in
    whole minutes, which is exact for every threshold the code compares
    against (minutes and hours).
  * Python dictionaries are association lists; keys are unique in all real
    caches, and lookups take the first matching key.
  * The cache blob handed to `validate_cache_structure` is dynamically
    typed in Python, so that function is embedded over a JSON-like value
    type `JVal`.  The coordinator helpers only ever read well-typed caches,
    so they are embedded over the typed `CoordCache` model.
  * Log strings are not modelled; issue strings and stale reasons are
    replaced by inductive tags carrying the same data.
-/

namespace TibberPrices

/-! ## Time model -/

/-- A Python `datetime` in the installation's local timezone: calendar day
number and minute of day (0..1439).  Seconds are dropped; every comparison
in the embedded code is in whole minutes or hours. -/
structure LocalDateTime where
  day : Nat
  minuteOfDay : Nat
deriving DecidableEq, Repr

/-- Absolute minute count of a local datetime, used for `timedelta`
subtraction `now - last`. -/
def LocalDateTime.absMinutes (t : LocalDateTime) : Int :=
  (t.day : Int) * 1440 + (t.minuteOfDay : Int)

/-- The `.minute` field of a Python datetime. -/
def LocalDateTime.minute (t : LocalDateTime) : Nat :=
  t.minuteOfDay % 60

/-- The `.hour` field of a Python datetime. -/
def LocalDateTime.hour (t : LocalDateTime) : Nat :=
  t.minuteOfDay / 60

/-! ## Dynamic (JSON-like) values for `validate_cache_structure`

`cache_validation.validate_cache_structure` receives `dict[str, Any]` and
checks dynamic types (`isinstance(..., dict)`, `isinstance(..., list)`), so
its embedding works over a JSON-like value type. -/

/-- A Python value as stored in the persisted cache blob. -/
inductive JVal where
  | jnull
  | jbool (b : Bool)
  | jnum (n : Int)
  | jstr (s : String)
  | jlist (xs : List JVal)
  | jdict (kvs : List (String × JVal))

/-- Python truthiness of a `JVal` (`if not value: ...`). -/
def JVal.truthy : JVal → Bool
  | .jnull => false
  | .jbool b => b
  | .jnum n => n != 0
  | .jstr s => s ≠ ""
  | .jlist xs => !xs.isEmpty
  | .jdict kvs => !kvs.isEmpty

/-- Source `isinstance(v, dict)`. -/
def JVal.isDict : JVal → Bool
  | .jdict _ => true
  | _ => false

/-- Source `isinstance(v, list)`. -/
def JVal.isList : JVal → Bool
  | .jlist _ => true
  | _ => false

/-- Dictionary lookup `d.get(k)` / `d[k]` on an association list. -/
def getKey (kvs : List (String × JVal)) (k : String) : Option JVal :=
  (kvs.find? (fun p => p.1 = k)).map (fun p => p.2)

/-! ## `validate_cache_structure` (cache_validation.py lines 15-103) -/

/-- Tags for the strings appended to `result["structural_issues"]`. -/
inductive StructIssue where
  | emptyCache
  | missingSections (names : List String)
  | invalidUserInfo
  | invalidHomes
  | invalidPriceInfo
  | homesMissingFromPriceInfo (ids : List String)
  | unknownHomesInPriceInfo (ids : List String)
deriving DecidableEq, Repr

/-- Tags for the strings appended to `result["price_structure_issues"]`. -/
inductive PriceStructIssue where
  | homeNotADict (homeId : String)
  | keyNotAList (homeId : String) (key : String)
deriving DecidableEq, Repr

/-- The result dictionary of `validate_cache_structure`
(`data_completeness_issues` is allocated by the source but never written,
so it is omitted). -/
structure CacheValidation where
  valid : Bool
  structural_issues : List StructIssue
  price_structure_issues : List PriceStructIssue
  needs_full_refresh : Bool
deriving DecidableEq, Repr

/-- Python runtime errors that the embedded code can raise.
`validate_cache_structure` calls `.keys()` on the value stored under
`"homes"`, which raises `AttributeError` when that value is not a dict. -/
inductive PyError where
  | attributeError
deriving DecidableEq, Repr

/-- Inner loop of step 7: `if key in price_info and not
isinstance(price_info[key], list)`. -/
def checkPriceListKey (homeId : String) (kvs : List (String × JVal))
    (a : CacheValidation) (key : String) : CacheValidation :=
  match getKey kvs key with
  | some v =>
      if v.isList then a
      else { a with
             valid := false
             price_structure_issues :=
               a.price_structure_issues ++ [.keyNotAList homeId key] }
  | none => a

/-- Step 7 of `validate_cache_structure`: per-home checks of
`price_info`. -/
def checkHomePriceStructure (acc : CacheValidation) (home : String × JVal) :
    CacheValidation :=
  match home.2 with
  | .jdict kvs =>
      checkPriceListKey home.1 kvs (checkPriceListKey home.1 kvs acc "today") "tomorrow"
  | _ =>
      { acc with
        valid := false
        price_structure_issues :=
          acc.price_structure_issues ++ [.homeNotADict home.1] }

/-- Embedding of `validate_cache_structure(data_cache)`.  The argument is
the entry list of the `data_cache` dict.  Returns `.error` exactly where
the Python function would raise (step 6 calls `.keys()` on a non-dict
`homes` value). -/
def validate_cache_structure (data_cache : List (String × JVal)) :
    Except PyError CacheValidation :=
  -- 1. `if not data_cache`
  if data_cache.isEmpty then
    .ok ⟨false, [.emptyCache], [], true⟩
  else
    -- 2. required sections present as keys
    let required := ["user_info", "homes", "price_info"]
    let missing := required.filter (fun s => (getKey data_cache s).isNone)
    if !missing.isEmpty then
      .ok ⟨false, [.missingSections missing], [], true⟩
    else
      -- 3. user_info a dict (continue checking)
      let r0 : CacheValidation := ⟨true, [], [], false⟩
      let r1 :=
        if ((getKey data_cache "user_info").getD .jnull).isDict then r0
        else { r0 with
               valid := false
               structural_issues := r0.structural_issues ++ [.invalidUserInfo]
               needs_full_refresh := true }
      -- 4. homes a dict (continue checking)
      let r2 :=
        if ((getKey data_cache "homes").getD .jnull).isDict then r1
        else { r1 with
               valid := false
               structural_issues := r1.structural_issues ++ [.invalidHomes]
               needs_full_refresh := true }
      -- 5. price_info a dict (stop on failure)
      match getKey data_cache "price_info" with
      | some (.jdict priceInfo) =>
          -- 6. key-set consistency; `.keys()` on homes raises if not a dict
          match getKey data_cache "homes" with
          | some (.jdict homes) =>
              let homeIds := homes.map (fun p => p.1)
              let priceIds := priceInfo.map (fun p => p.1)
              let missingInPrice := homeIds.filter (fun k => !priceIds.contains k)
              let r3 :=
                if !missingInPrice.isEmpty then
                  { r2 with
                    valid := false
                    structural_issues :=
                      r2.structural_issues ++ [.homesMissingFromPriceInfo missingInPrice] }
                else r2
              let extraInPrice := priceIds.filter (fun k => !homeIds.contains k)
              let r4 :=
                if !extraInPrice.isEmpty then
                  { r3 with
                    valid := false
                    structural_issues :=
                      r3.structural_issues ++ [.unknownHomesInPriceInfo extraInPrice] }
                else r3
              -- 7. per-home price data structure
              .ok (priceInfo.foldl checkHomePriceStructure r4)
          | _ => .error .attributeError
      | _ =>
          .ok { r2 with
                valid := false
                structural_issues := r2.structural_issues ++ [.invalidPriceInfo]
                needs_full_refresh := true }

/-! ## `check_for_stale_cache` (cache_validation.py lines 316-365) -/

/-- Tags for the `reason` strings built by `check_for_stale_cache`. -/
inductive StaleReason where
  | noPreviousUpdate
  | severelyStale
  | staleDuringActiveHours
  | quarterHourBoundary
deriving DecidableEq, Repr

/-- The result dictionary of `check_for_stale_cache`. -/
structure StaleResult where
  is_stale : Bool
  reason : Option StaleReason
  needs_refresh : Bool
deriving DecidableEq, Repr

/-- Source `API_SEVERELY_STALE_THRESHOLD_HOURS = 12` (helpers/const.py). -/
def API_SEVERELY_STALE_THRESHOLD_HOURS : Nat := 12

/-- Source `API_STALE_THRESHOLD_MINUTES = 60` (helpers/const.py). -/
def API_STALE_THRESHOLD_MINUTES : Nat := 60

/-- Source `MIN_QUARTER_HOUR_BOUNDARY_MINUTES = 5` (helpers/const.py). -/
def MIN_QUARTER_HOUR_BOUNDARY_MINUTES : Nat := 5

/-- Embedding of `check_for_stale_cache(last_full_update, now)`. -/
def check_for_stale_cache (last_full_update : Option LocalDateTime)
    (now : LocalDateTime) : StaleResult :=
  match last_full_update with
  | none => ⟨true, some .noPreviousUpdate, true⟩
  | some last =>
      let timeSince : Int := now.absMinutes - last.absMinutes
      if timeSince > (API_SEVERELY_STALE_THRESHOLD_HOURS : Int) * 60 then
        ⟨true, some .severelyStale, true⟩
      else if timeSince > (API_STALE_THRESHOLD_MINUTES : Int) then
        -- moderately stale only during active hours (>= 13:00 local)
        if now.minuteOfDay ≥ 13 * 60 then
          ⟨true, some .staleDuringActiveHours, true⟩
        else
          ⟨false, none, false⟩
      else if now.minute / 15 ≠ last.minute / 15 then
        if now.minute % 15 < MIN_QUARTER_HOUR_BOUNDARY_MINUTES then
          ⟨true, some .quarterHourBoundary, true⟩
        else
          ⟨false, none, false⟩
      else
        ⟨false, none, false⟩

/-! ## Typed price-data model (coordinator and midnight/DST helpers)

The coordinator and the midnight/DST helpers read the cache through a fixed
shape: `price_info` maps home ids to dicts with optional `today` /
`tomorrow` / `range_prices` lists of price points.  A price point's
`startsAt` string either parses to a timestamp or does not
(`dt_util.parse_datetime` returning `None`); only its calendar date and
hour are ever inspected.  `startsAt = none` models an unparseable value;
an entry missing the key entirely raises `KeyError` in Python, which the
midnight and validation helpers catch and treat the same way. -/

/-- Parsed `startsAt` timestamp of a price point: local calendar day and
hour.  (Minutes are never inspected by the embedded code.) -/
structure ParsedTime where
  day : Nat
  hour : Nat
deriving DecidableEq, Repr

/-- One price point.  `payload` stands for the remaining fields
(`total`, `energy`, `tax`, `level`), which the embedded functions carry
around but never inspect. -/
structure Entry where
  startsAt : Option ParsedTime
  payload : Nat
deriving DecidableEq, Repr

/-- Per-home slice of `price_info`: `none` models an absent key. -/
structure HomePrices where
  today : Option (List Entry)
  tomorrow : Option (List Entry)
  range_prices : Option (List Entry)
deriving DecidableEq, Repr

/-- Per-home slice of `price_rating`.  Payloads are opaque. -/
structure HomeRating where
  thresholds : Option Nat
  hourly : Option Nat
  daily : Option Nat
  monthly : Option Nat
deriving DecidableEq, Repr

/-- The `viewer` blob of a user-info response, also stored under
`user_info` in the cache.  `entries` are the identity fields (opaque
payloads); `homesList` is the value of its `"homes"` key when present. -/
structure Viewer where
  entries : List (String × Nat)
  homesList : Option (List (String × Nat))
deriving DecidableEq, Repr

/-- Python truthiness of a `Viewer` dict: it is empty exactly when it has
no identity fields and no `"homes"` key. -/
def Viewer.isTruthy (v : Viewer) : Bool :=
  !v.entries.isEmpty || v.homesList.isSome

/-- The coordinator's `self._data_cache` dict.  Each field is `none` when
the corresponding key is absent. -/
structure CoordCache where
  user_info : Option Viewer
  homes : Option (List (String × Nat))
  price_info : Option (List (String × HomePrices))
  price_rating : Option (List (String × HomeRating))
deriving DecidableEq, Repr

/-- Python truthiness of an optional dict/list value fetched with
`.get(key)`: falsy when the key is absent or the container empty. -/
def truthyOptList {a : Type} : Option (List a) → Bool
  | some l => !l.isEmpty
  | none => false

/-- Source `not self._data_cache.get("user_info")` (negated). -/
def userInfoTruthy (c : CoordCache) : Bool :=
  match c.user_info with
  | some v => v.isTruthy
  | none => false

/-! ## Midnight transition helpers (midnight_transition.py) -/

/-- The result dictionary of `check_for_missed_midnight_transition`.
`avg_days_old` is a float in the source (`total / len`), embedded as a
rational. -/
structure MidnightResult where
  needs_rotation : Bool
  outdated_homes : Nat
  total_homes : Nat
  days_old_by_home : List (String × Nat)
  severely_outdated : Bool
  avg_days_old : Rat
deriving DecidableEq, Repr

/-- Date of the first `today` entry of a home, when the `today` list is
truthy and the first entry's `startsAt` parses.  (`KeyError` /
unparseable `startsAt` both make the source skip the home.) -/
def firstTodayDate (hp : HomePrices) : Option Nat :=
  match hp.today with
  | some (e :: _) =>
      match e.startsAt with
      | some pt => some pt.day
      | none => none
  | _ => none

/-- Loop body of `check_for_missed_midnight_transition` for one home. -/
def midnightStep (current_date : Nat) (acc : MidnightResult)
    (home : String × HomePrices) : MidnightResult :=
  match firstTodayDate home.2 with
  | some d =>
      if d < current_date then
        let acc := { acc with
          needs_rotation := true
          outdated_homes := acc.outdated_homes + 1 }
        let daysOld := current_date - d
        if daysOld > 1 then
          { acc with days_old_by_home := acc.days_old_by_home ++ [(home.1, daysOld)] }
        else acc
      else acc
  | none => acc

/-- Embedding of `check_for_missed_midnight_transition(price_info,
current_date)`. -/
def check_for_missed_midnight_transition
    (price_info : List (String × HomePrices)) (current_date : Nat) :
    MidnightResult :=
  let base : MidnightResult := ⟨false, 0, price_info.length, [], false, 0⟩
  let r := price_info.foldl (midnightStep current_date) base
  if !r.days_old_by_home.isEmpty then
    let total : Nat := (r.days_old_by_home.map (fun p => p.2)).sum
    let avg : Rat := (total : Rat) / (r.days_old_by_home.length : Rat)
    { r with avg_days_old := avg, severely_outdated := avg > 1 }
  else r

/-- Rotation of one home (`if "tomorrow" in price_info:` body). -/
def rotateHome (hp : HomePrices) : HomePrices :=
  match hp.tomorrow with
  | some t => { hp with today := some t, tomorrow := some [] }
  | none => hp

/-- Embedding of `perform_midnight_rotation(data_cache)`: skipped when the
cache is falsy or has no `price_info` key, otherwise every home with a
`tomorrow` key gets `today := tomorrow; tomorrow := []`. -/
def perform_midnight_rotation (c : CoordCache) : CoordCache :=
  match c.price_info with
  | none => c
  | some pi => { c with price_info := some (pi.map (fun p => (p.1, rotateHome p.2))) }

/-! ## Coordinator state machine (coordinator.py) -/

/-- Source `ApiState` enum. -/
inductive ApiState where
  | idle
  | waiting
  | searching
deriving DecidableEq, Repr

/-- Source `TOMORROW_DATA_CHECK_START = time(13, 0)`, in minutes of day. -/
def TOMORROW_DATA_CHECK_START : Nat := 13 * 60

/-- Source `INTENSIVE_SEARCH_START = time(15, 0)`, in minutes of day. -/
def INTENSIVE_SEARCH_START : Nat := 15 * 60

/-- Source `WAITING_CHECK_INTERVAL = timedelta(minutes=15)`. -/
def WAITING_CHECK_INTERVAL : Int := 15

/-- Source `SEARCHING_CHECK_INTERVAL = timedelta(minutes=5)`. -/
def SEARCHING_CHECK_INTERVAL : Int := 5

/-- Source `ENTITY_UPDATE_MINUTES = [0, 15, 30, 45]`. -/
def ENTITY_UPDATE_MINUTES : List Nat := [0, 15, 30, 45]

/-- Source `API_MINUTE_OFFSETS = [0, 1, 2, 3, 4]`. -/
def API_MINUTE_OFFSETS : List Nat := [0, 1, 2, 3, 4]

/-- The coordinator's process-local scheduler state (`_initialized`,
`_tomorrow_data_available`, `_last_tomorrow_check`, `_last_full_update`,
`_offset_index`).  `ready` mirrors the `_initialized` flag. -/
structure SchedState where
  ready : Bool
  tomorrow_data_available : Bool
  last_tomorrow_check : Option LocalDateTime
  last_full_update : Option LocalDateTime
  offset_index : Nat
deriving DecidableEq, Repr

/-- Source `_is_missing_today_data`: some home's `today` is absent or empty
(vacuously false when `price_info` is absent or empty). -/
def is_missing_today_data (c : CoordCache) : Bool :=
  (c.price_info.getD []).any (fun p => !truthyOptList p.2.today)

/-- Embedding of the `current_api_state` property. -/
def current_api_state (st : SchedState) (c : CoordCache)
    (now : LocalDateTime) : ApiState :=
  if st.tomorrow_data_available then .idle
  else if !userInfoTruthy c || !truthyOptList c.homes then .searching
  else if is_missing_today_data c then .searching
  else if now.minuteOfDay < TOMORROW_DATA_CHECK_START then .idle
  else if now.minuteOfDay < INTENSIVE_SEARCH_START then .waiting
  else .searching

/-- Embedding of `_should_check_in_waiting_state`. -/
def should_check_in_waiting_state (st : SchedState) (now : LocalDateTime) :
    Bool :=
  match st.last_tomorrow_check with
  | some t =>
      if now.absMinutes - t.absMinutes < WAITING_CHECK_INTERVAL then false
      else
        let target := (ENTITY_UPDATE_MINUTES.get? (st.offset_index % ENTITY_UPDATE_MINUTES.length)).getD 0
        let off := (API_MINUTE_OFFSETS.get? (st.offset_index % API_MINUTE_OFFSETS.length)).getD 0
        now.minute == (target + off) % 60
  | none =>
      let target := (ENTITY_UPDATE_MINUTES.get? (st.offset_index % ENTITY_UPDATE_MINUTES.length)).getD 0
      let off := (API_MINUTE_OFFSETS.get? (st.offset_index % API_MINUTE_OFFSETS.length)).getD 0
      now.minute == (target + off) % 60

/-- Embedding of `_should_check_in_searching_state`. -/
def should_check_in_searching_state (st : SchedState) (now : LocalDateTime) :
    Bool :=
  match st.last_tomorrow_check with
  | none => true
  | some t => now.absMinutes - t.absMinutes ≥ SEARCHING_CHECK_INTERVAL

/-- The branch of `_should_fetch_data` that produces the decision; the
constructor records which return statement fired. -/
inductive FetchPath where
  | notReady
  | missingBasic
  | missingToday
  | idleNoFetch
  | waitingCheck (fetch : Bool)
  | searchingCheck (fetch : Bool)
deriving DecidableEq, Repr

/-- Control-flow skeleton of `_should_fetch_data`: which branch returns,
together with the boolean it returns on the WAITING/SEARCHING branches. -/
def fetchDecisionPath (st : SchedState) (c : CoordCache)
    (now : LocalDateTime) : FetchPath :=
  if !st.ready then .notReady
  else if !userInfoTruthy c || !truthyOptList c.homes then .missingBasic
  else if is_missing_today_data c then .missingToday
  else
    match current_api_state st c now with
    | .idle => .idleNoFetch
    | .waiting => .waitingCheck (should_check_in_waiting_state st now)
    | .searching => .searchingCheck (should_check_in_searching_state st now)

/-- Embedding of `_should_fetch_data`. -/
def should_fetch_data (st : SchedState) (c : CoordCache)
    (now : LocalDateTime) : Bool :=
  match fetchDecisionPath st c now with
  | .notReady => false
  | .missingBasic => true
  | .missingToday => true
  | .idleNoFetch => false
  | .waitingCheck b => b
  | .searchingCheck b => b

/-! ## Tomorrow-data availability (`_check_tomorrow_data`, lines 433-454) -/

/-- Per-home test in `_check_tomorrow_data`: the `tomorrow` list is truthy
and some entry's parsed `startsAt` date equals the day after `now`. -/
def homeHasTomorrow (hp : HomePrices) (tomorrowDay : Nat) : Bool :=
  match hp.tomorrow with
  | some l =>
      !l.isEmpty &&
        l.any (fun e =>
          match e.startsAt with
          | some pt => pt.day == tomorrowDay
          | none => false)
  | none => false

/-- The recomputed `_tomorrow_data_available` flag: starts `True`, set to
`False` by any home that fails the per-home test. -/
def computeTomorrowAvailable (price_info : List (String × HomePrices))
    (tomorrowDay : Nat) : Bool :=
  price_info.all (fun p => homeHasTomorrow p.2 tomorrowDay)

/-! ## DST transition validation (data_validation.py) -/

/-- Source `SPRING_FORWARD_HOURS = 23`. -/
def SPRING_FORWARD_HOURS : Nat := 23

/-- Source `FALL_BACK_HOURS = 25`. -/
def FALL_BACK_HOURS : Nat := 25

/-- Source `DUPLICATE_HOUR_COUNT = 2`. -/
def DUPLICATE_HOUR_COUNT : Nat := 2

/-- Timezone context: the UTC offset (in minutes, as Python's
`utcoffset()` timedelta) in effect on each local calendar day at the
current clock time.  `offset d = 0` models a zero/UTC offset, which is a
falsy timedelta in Python. -/
structure TzContext where
  offset : Nat → Int

/-- Embedding of `is_dst_transition_day(now)`: the UTC offset differs from
yesterday's or tomorrow's. -/
def is_dst_transition_day (tz : TzContext) (now : LocalDateTime) : Bool :=
  let today := tz.offset now.day
  let yesterday := tz.offset (now.day - 1)
  let tomorrow := tz.offset (now.day + 1)
  (today != yesterday) || (today != tomorrow)

/-- Embedding of `is_spring_forward(now)`: today's offset exceeds
yesterday's; a zero (falsy) offset on either day short-circuits to
`False`. -/
def is_spring_forward (tz : TzContext) (now : LocalDateTime) : Bool :=
  let today := tz.offset now.day
  let yesterday := tz.offset (now.day - 1)
  if today != 0 && yesterday != 0 then today > yesterday else false

/-- Issue strings appended by `validate_dst_transition_data`. -/
inductive DstIssue where
  | springHourCount (found : Nat)
  | springDuplicates (dups : List Nat)
  | fallHourCount (found : Nat)
  | fallDuplicates (dups : List Nat)
deriving DecidableEq, Repr

/-- Result dictionary of `validate_dst_transition_data`. -/
structure DstResult where
  valid : Bool
  issues : List DstIssue
deriving DecidableEq, Repr

/-- The parsed timestamps of the entries dated on day `d`.  (The source
first sorts the list by timestamp; every quantity computed from it -
the entry count, the per-hour frequencies and the set of duplicated
hours - is invariant under that permutation, so the sort is dropped.) -/
def todayTimes (prices : List Entry) (d : Nat) : List ParsedTime :=
  prices.filterMap (fun e =>
    match e.startsAt with
    | some pt => if pt.day = d then some pt else none
    | none => none)

/-- Source `hour_frequency[h]`: how many of the day's entries carry hour `h`. -/
def hourFreq (pts : List ParsedTime) (h : Nat) : Nat :=
  pts.countP (fun pt => pt.hour == h)

/-- Source `duplicate_hours`: the distinct hour values occurring more than once,
in the order Python's dict iteration yields them. -/
def duplicateHours (pts : List ParsedTime) : List Nat :=
  ((pts.map (fun pt => pt.hour)).dedup).filter (fun h => 1 < hourFreq pts h)

/-- Embedding of `validate_dst_transition_data(prices, now, ...)`. -/
def validate_dst_transition_data (prices : List Entry) (tz : TzContext)
    (now : LocalDateTime) : DstResult :=
  let pts := todayTimes prices now.day
  let hoursCount := pts.length
  let dups := duplicateHours pts
  if is_spring_forward tz now then
    let countIssue := hoursCount ≠ SPRING_FORWARD_HOURS
    let dupIssue := !dups.isEmpty
    { valid := !countIssue && !dupIssue
      issues :=
        (if countIssue then [.springHourCount hoursCount] else []) ++
        (if dupIssue then [.springDuplicates dups] else []) }
  else
    let countIssue := hoursCount ≠ FALL_BACK_HOURS
    -- `expected_duplicates = hour_frequency.get(duplicate_hours[0] if duplicate_hours else 0, 0)`
    let expectedDuplicates := hourFreq pts (dups.headD 0)
    let dupIssue := dups.length ≠ 1 || expectedDuplicates ≠ DUPLICATE_HOUR_COUNT
    { valid := !countIssue && !dupIssue
      issues :=
        (if countIssue then [.fallHourCount hoursCount] else []) ++
        (if dupIssue then [.fallDuplicates dups] else []) }

/-! ## The fetch cycle `_async_update_data` (coordinator.py lines 305-384)

The cycle works on `data = self._data_cache.copy()` - a *shallow* copy.
The top-level keys of `data` are rebindable without touching the cache
(`data["user_info"] = ...`), but the nested `price_info` / `price_rating`
dicts are shared objects: `_process_price_info` and
`_process_price_rating` mutate them in place, so whenever the cache
already holds the section, every merge is immediately visible in
`self._data_cache` as well.  The embedding threads both the working copy
`data` and the live cache through each step and applies nested-section
merges to both exactly when the section pre-existed in the cache
(i.e. when the binding is aliased). -/

/-- Errors thrown by the API client (`api.py`).  `comm` and `generic` are
both caught by the `TibberPricesApiClientError` arm. -/
inductive ApiError where
  | auth
  | rateLimit
  | comm
  | generic
deriving DecidableEq, Repr

/-- Per-home slice of a price-info GraphQL response.  Each field is the
parsed content of the corresponding key when present (`range` already
reduced to its `edges[].node` list). -/
structure PriceHomeResp where
  id : String
  range : Option (List Entry)
  today : Option (List Entry)
  tomorrow : Option (List Entry)
deriving DecidableEq, Repr

/-- A price-info response; `homesData = none` models a payload without
`viewer`/`homes`, which `_process_price_info` ignores. -/
structure PriceResp where
  homesData : Option (List PriceHomeResp)
deriving DecidableEq, Repr

/-- Per-home slice of a price-rating response: `thresholdPercentages` and
the requested period's data, when present (payloads opaque). -/
structure RatingHomeResp where
  id : String
  thresholds : Option Nat
  periodData : Option Nat
deriving DecidableEq, Repr

/-- A price-rating response. -/
structure RatingResp where
  homesData : Option (List RatingHomeResp)
deriving DecidableEq, Repr

/-- Which rating period a `_process_price_rating` call stores. -/
inductive RPeriod where
  | hourly
  | daily
  | monthly
deriving DecidableEq, Repr

/-- The `viewer` payload of a user-info response (`none` models a payload
without `viewer`). -/
structure UserResp where
  viewer : Option Viewer
deriving DecidableEq, Repr

/-- Decidable equality for `Except` results (not provided by core). -/
instance {e a : Type} [DecidableEq e] [DecidableEq a] :
    DecidableEq (Except e a) := fun x y =>
  match x, y with
  | .ok u, .ok v =>
      if h : u = v then .isTrue (by rw [h])
      else .isFalse (by intro hc; cases hc; exact h rfl)
  | .error u, .error v =>
      if h : u = v then .isTrue (by rw [h])
      else .isFalse (by intro hc; cases hc; exact h rfl)
  | .ok _, .error _ => .isFalse (by intro hc; cases hc)
  | .error _, .ok _ => .isFalse (by intro hc; cases hc)

/-- One outcome per API call the cycle can make.  `priceInfo1` is the
unconditional fetch at line 349; `priceInfo2` the extra SEARCHING-state
fetch inside `_check_tomorrow_data`. -/
structure ApiBehavior where
  userInfo : Except ApiError UserResp
  priceInfo1 : Except ApiError PriceResp
  priceInfo2 : Except ApiError PriceResp
  daily : Except ApiError RatingResp
  hourly : Except ApiError RatingResp
  monthly : Except ApiError RatingResp
deriving DecidableEq, Repr

/-- Update the first binding of `k` in an association list with `f`,
appending `(k, f dflt)` when `k` is absent (Python dict insertion
order). -/
def assocUpdate {a : Type} (dflt : a) (k : String) (f : a → a) :
    List (String × a) → List (String × a)
  | [] => [(k, f dflt)]
  | p :: rest =>
      if p.1 = k then (p.1, f p.2) :: rest
      else p :: assocUpdate dflt k f rest

/-- Field-wise merge of one home's price-info response
(`_process_price_info` body: each key present in the response overwrites
the cached value). -/
def mergeHomePrices (r : PriceHomeResp) (hp : HomePrices) : HomePrices :=
  { range_prices := if r.range.isSome then r.range else hp.range_prices
    today := if r.today.isSome then r.today else hp.today
    tomorrow := if r.tomorrow.isSome then r.tomorrow else hp.tomorrow }

/-- The empty per-home dict created by
`data["price_info"][home_id] = {}`. -/
def emptyHomePrices : HomePrices := ⟨none, none, none⟩

/-- Source `_process_price_info` applied to the entries of the `price_info`
dict. -/
def processPriceInfo (resp : PriceResp)
    (pi : List (String × HomePrices)) : List (String × HomePrices) :=
  match resp.homesData with
  | none => pi
  | some homes =>
      homes.foldl
        (fun acc r => assocUpdate emptyHomePrices r.id (mergeHomePrices r) acc)
        pi

/-- Field-wise merge of one home's price-rating response for one
period. -/
def mergeHomeRating (period : RPeriod) (r : RatingHomeResp)
    (hr : HomeRating) : HomeRating :=
  let hr1 := if r.thresholds.isSome then { hr with thresholds := r.thresholds } else hr
  match period with
  | .hourly => if r.periodData.isSome then { hr1 with hourly := r.periodData } else hr1
  | .daily => if r.periodData.isSome then { hr1 with daily := r.periodData } else hr1
  | .monthly => if r.periodData.isSome then { hr1 with monthly := r.periodData } else hr1

/-- The empty per-home dict created by
`data["price_rating"][home_id] = {}`. -/
def emptyHomeRating : HomeRating := ⟨none, none, none, none⟩

/-- Source `_process_price_rating` applied to the entries of the `price_rating`
dict. -/
def processPriceRating (resp : RatingResp) (period : RPeriod)
    (pr : List (String × HomeRating)) : List (String × HomeRating) :=
  match resp.homesData with
  | none => pr
  | some homes =>
      homes.foldl
        (fun acc r => assocUpdate emptyHomeRating r.id (mergeHomeRating period r) acc)
        pr

/-- Source `_process_price_info(price_info, data)` acting on the working copy and
on the live cache.  When the cache already holds `price_info`, the dict
object is shared with `data` (shallow copy), so the in-place merge lands
in both; when it is absent, the fresh dict created on `data` leaves the
cache untouched - and a response without `viewer`/`homes` returns before
even creating it. -/
def applyPriceInfo (resp : PriceResp) (data cache : CoordCache) :
    CoordCache × CoordCache :=
  match resp.homesData with
  | none => (data, cache)
  | some _ =>
      let merged := processPriceInfo resp (data.price_info.getD [])
      ({ data with price_info := some merged },
       match cache.price_info with
       | some _ => { cache with price_info := some merged }
       | none => cache)

/-- Source `_process_price_rating(...)` acting on the working copy and on the
live cache, with the same aliasing rule as `applyPriceInfo`. -/
def applyPriceRating (resp : RatingResp) (period : RPeriod)
    (data cache : CoordCache) : CoordCache × CoordCache :=
  match resp.homesData with
  | none => (data, cache)
  | some _ =>
      let merged := processPriceRating resp period (data.price_rating.getD [])
      ({ data with price_rating := some merged },
       match cache.price_rating with
       | some _ => { cache with price_rating := some merged }
       | none => cache)

/-- Source `_fetch_basic_data` response handling: rebinds `data["user_info"]` and
`data["homes"]` on the working copy only. -/
def applyBasicData (resp : UserResp) (data : CoordCache) : CoordCache :=
  match resp.viewer with
  | none => data
  | some v =>
      let data1 := { data with user_info := some v }
      match v.homesList with
      | some hl => { data1 with homes := some hl }
      | none => data1

/-- Result of one `_async_update_data` call.  `ok` carries the returned
snapshot, the final `self._data_cache`, the final scheduler state, and
whether the return came from the `except RateLimitError` arm (the
soft-success path). -/
inductive CycleOutcome where
  | ok (snapshot : CoordCache) (cache : CoordCache) (st : SchedState)
       (rateLimited : Bool)
  | authFailed (cache : CoordCache) (st : SchedState)
  | updateFailed (cache : CoordCache) (st : SchedState)
deriving DecidableEq, Repr

/-- The `except` clauses at the bottom of `_async_update_data`:
authentication errors re-raise as `ConfigEntryAuthFailed`, rate limits
return the (current) cache as a soft success, anything else re-raises as
`UpdateFailed`. -/
def finishError (e : ApiError) (cache : CoordCache) (st : SchedState) :
    CycleOutcome :=
  match e with
  | .auth => .authFailed cache st
  | .rateLimit => .ok cache cache st true
  | .comm => .updateFailed cache st
  | .generic => .updateFailed cache st

/-- Source `self._data_cache = data` followed by returning `data` (the success
path tail of `_async_update_data`). -/
def commitCycle (data : CoordCache) (st : SchedState) : CycleOutcome :=
  .ok data data st false

/-- The early-return guard of `_check_tomorrow_data` (checked recently
while in WAITING state). -/
def tomorrowSkip (state : ApiState) (st : SchedState)
    (now : LocalDateTime) : Bool :=
  match st.last_tomorrow_check with
  | some t =>
      (now.absMinutes - t.absMinutes < WAITING_CHECK_INTERVAL) &&
        state == ApiState.waiting
  | none => false

/-- The scheduler state after the availability recomputation
(`self._tomorrow_data_available = ...; self._last_tomorrow_check = now`). -/
def tomorrowState (st : SchedState) (data : CoordCache)
    (now : LocalDateTime) : SchedState :=
  { st with
    tomorrow_data_available :=
      computeTomorrowAvailable (data.price_info.getD []) (now.day + 1)
    last_tomorrow_check := some now }

/-- Cycle stage: `_check_tomorrow_data` (called when the state is WAITING
or SEARCHING), then the final `self._data_cache = data` commit. -/
def stageTomorrow (state : ApiState) (st : SchedState)
    (data cache : CoordCache) (now : LocalDateTime) (api : ApiBehavior) :
    CycleOutcome :=
  if state = .idle then commitCycle data st
  else if tomorrowSkip state st now then commitCycle data st
  else if state == ApiState.searching &&
      !(computeTomorrowAvailable (data.price_info.getD []) (now.day + 1)) then
    match api.priceInfo2 with
    | .error e => finishError e cache (tomorrowState st data now)
    | .ok p => commitCycle (applyPriceInfo p data cache).1 (tomorrowState st data now)
  else commitCycle data (tomorrowState st data now)

/-- Home-id keys of the cached `price_rating` section
(`data.get("price_rating", {})`). -/
def ratingKeys (data : CoordCache) : List String :=
  (data.price_rating.getD []).map (fun p => p.1)

/-- Tail of `_fetch_price_ratings`: the monthly fetch (when IDLE or no
literal `"monthly"` home id cached), then `stageTomorrow`. -/
def stageRatingsM (state : ApiState) (st : SchedState)
    (data cache : CoordCache) (now : LocalDateTime) (api : ApiBehavior) :
    CycleOutcome :=
  if state == ApiState.idle || !(ratingKeys data).contains "monthly" then
    match api.monthly with
    | .error e => finishError e cache st
    | .ok r3 =>
        stageTomorrow state st (applyPriceRating r3 .monthly data cache).1
          (applyPriceRating r3 .monthly data cache).2 now api
  else stageTomorrow state st data cache now api

/-- Middle of `_fetch_price_ratings`: the hourly fetch (unless IDLE with a
literal `"hourly"` home id cached), then `stageRatingsM`. -/
def stageRatingsH (state : ApiState) (st : SchedState)
    (data cache : CoordCache) (now : LocalDateTime) (api : ApiBehavior) :
    CycleOutcome :=
  -- `if state != ApiState.IDLE or "hourly" not in data.get("price_rating", {})`
  if state != ApiState.idle || !(ratingKeys data).contains "hourly" then
    match api.hourly with
    | .error e => finishError e cache st
    | .ok r2 =>
        stageRatingsM state st (applyPriceRating r2 .hourly data cache).1
          (applyPriceRating r2 .hourly data cache).2 now api
  else stageRatingsM state st data cache now api

/-- Cycle stage: `_fetch_price_ratings` (the daily fetch always happens),
then `stageRatingsH`/`stageRatingsM`, then `stageTomorrow`. -/
def stageRatings (state : ApiState) (st : SchedState)
    (data cache : CoordCache) (now : LocalDateTime) (api : ApiBehavior) :
    CycleOutcome :=
  match api.daily with
  | .error e => finishError e cache st
  | .ok r =>
      stageRatingsH state st (applyPriceRating r .daily data cache).1
        (applyPriceRating r .daily data cache).2 now api

/-- Cycle stage: the unconditional price-info fetch (line 349) followed by
`self._last_full_update = now`, then `stageRatings`. -/
def stagePrice (state : ApiState) (st : SchedState)
    (data cache : CoordCache) (now : LocalDateTime) (api : ApiBehavior) :
    CycleOutcome :=
  match api.priceInfo1 with
  | .error e => finishError e cache st
  | .ok p =>
      stageRatings state { st with last_full_update := some now }
        (applyPriceInfo p data cache).1 (applyPriceInfo p data cache).2 now api

/-- Cycle stage: `_fetch_basic_data` (user info fetched only when basic
data is missing from the working copy), then `stagePrice`.  The `state`
passed on is re-derived at line 347 from `self._data_cache`, which at
that point is still the pre-merge cache. -/
def stageBasic (st : SchedState) (data cache : CoordCache)
    (now : LocalDateTime) (api : ApiBehavior) : CycleOutcome :=
  if !userInfoTruthy data || !truthyOptList data.homes then
    match api.userInfo with
    | .error e => finishError e cache st
    | .ok u =>
        stagePrice (current_api_state st cache now) st (applyBasicData u data)
          cache now api
  else stagePrice (current_api_state st cache now) st data cache now api

/-- Embedding of `_async_update_data`.  The early `return
self._data_cache` when `_should_fetch_data()` is false is the
no-API-call path. -/
def updateCycle (st : SchedState) (cache : CoordCache)
    (now : LocalDateTime) (api : ApiBehavior) : CycleOutcome :=
  if !should_fetch_data st cache now then .ok cache cache st false
  else stageBasic st cache cache now api

/-! ## Theorems -/

/-! ### Structure validator: short-circuit and key-set mismatch -/

/-- Source `checkPriceListKey` touches only `valid` (monotonically towards
`false`) and `price_structure_issues`. -/
theorem checkPriceListKey_preserves (homeId : String)
    (kvs : List (String × JVal)) (a : CacheValidation) (key : String) :
    (checkPriceListKey homeId kvs a key).structural_issues = a.structural_issues ∧
    (checkPriceListKey homeId kvs a key).needs_full_refresh = a.needs_full_refresh ∧
    ((checkPriceListKey homeId kvs a key).valid = true → a.valid = true) := by
  unfold checkPriceListKey
  cases getKey kvs key with
  | none => exact ⟨rfl, rfl, fun h => h⟩
  | some v =>
      by_cases hl : v.isList = true
      · simp [hl]
      · simp [hl]

/-- Source `checkHomePriceStructure` touches only `valid` (monotonically towards
`false`) and `price_structure_issues`. -/
theorem checkHomePriceStructure_preserves (acc : CacheValidation)
    (home : String × JVal) :
    (checkHomePriceStructure acc home).structural_issues = acc.structural_issues ∧
    (checkHomePriceStructure acc home).needs_full_refresh = acc.needs_full_refresh ∧
    ((checkHomePriceStructure acc home).valid = true → acc.valid = true) := by
  obtain ⟨hid, hv⟩ := home
  cases hv with
  | jdict kvs =>
      have h1 := checkPriceListKey_preserves hid kvs acc "today"
      have h2 := checkPriceListKey_preserves hid kvs
        (checkPriceListKey hid kvs acc "today") "tomorrow"
      refine ⟨?_, ?_, ?_⟩
      · exact (h2.1).trans h1.1
      · exact (h2.2.1).trans h1.2.1
      · exact fun h => h1.2.2 (h2.2.2 h)
  | jnull => exact ⟨rfl, rfl, by simp [checkHomePriceStructure]⟩
  | jbool b => exact ⟨rfl, rfl, by simp [checkHomePriceStructure]⟩
  | jnum n => exact ⟨rfl, rfl, by simp [checkHomePriceStructure]⟩
  | jstr t => exact ⟨rfl, rfl, by simp [checkHomePriceStructure]⟩
  | jlist xs => exact ⟨rfl, rfl, by simp [checkHomePriceStructure]⟩

/-- The step-7 fold touches only `valid` (monotonically towards `false`)
and `price_structure_issues`. -/
theorem foldl_checkHome_preserves (pi : List (String × JVal))
    (acc : CacheValidation) :
    (pi.foldl checkHomePriceStructure acc).structural_issues = acc.structural_issues ∧
    (pi.foldl checkHomePriceStructure acc).needs_full_refresh = acc.needs_full_refresh ∧
    ((pi.foldl checkHomePriceStructure acc).valid = true → acc.valid = true) := by
  induction pi generalizing acc with
  | nil => exact ⟨rfl, rfl, fun h => h⟩
  | cons hd tl ih =>
      have hstep := checkHomePriceStructure_preserves acc hd
      have htl := ih (checkHomePriceStructure acc hd)
      refine ⟨?_, ?_, ?_⟩
      · exact (htl.1).trans hstep.1
      · exact (htl.2.1).trans hstep.2.1
      · exact fun h => hstep.2.2 (htl.2.2 h)

/-- C4: a cache that is empty, or that lacks any of the sections
`user_info`, `homes`, `price_info`, makes `validate_cache_structure`
return `valid = false` and `needs_full_refresh = true`, short-circuiting:
the structural issue list holds exactly the one empty-cache or
missing-sections issue and no per-home check runs (`price_structure_issues`
is empty). -/
theorem claim_C4_missing_sections_short_circuit
    (data_cache : List (String × JVal))
    (h : data_cache = [] ∨
      ∃ s ∈ ["user_info", "homes", "price_info"], getKey data_cache s = none) :
    ∃ issue, validate_cache_structure data_cache = .ok ⟨false, [issue], [], true⟩ ∧
      (issue = .emptyCache ∨ ∃ names, names ≠ [] ∧ issue = .missingSections names) := by
  by_cases he : data_cache.isEmpty = true
  · refine ⟨.emptyCache, ?_, Or.inl rfl⟩
    unfold validate_cache_structure
    simp [he]
  · rcases h with h | ⟨s, hs, hnone⟩
    · rw [h] at he
      simp at he
    · have hm : s ∈ (["user_info", "homes", "price_info"].filter
          (fun t => (getKey data_cache t).isNone)) := by
        rw [List.mem_filter]
        exact ⟨hs, by simp [hnone]⟩
      have hne : (["user_info", "homes", "price_info"].filter
          (fun t => (getKey data_cache t).isNone)).isEmpty = false := by
        rcases hfe : (["user_info", "homes", "price_info"].filter
            (fun t => (getKey data_cache t).isNone)) with _ | ⟨a, l⟩
        · rw [hfe] at hm
          simp at hm
        · rfl
      refine ⟨.missingSections (["user_info", "homes", "price_info"].filter
        (fun t => (getKey data_cache t).isNone)), ?_, Or.inr ⟨_, ?_, rfl⟩⟩
      · unfold validate_cache_structure
        simp only [he, Bool.false_eq_true, if_false, hne, Bool.not_false, if_true]
      · intro hc
        rw [hc] at hm
        simp at hm

/-- Witness for C4 at the empty cache. -/
theorem claim_C4_witness :
    ∃ issue, validate_cache_structure [] = .ok ⟨false, [issue], [], true⟩ ∧
      (issue = .emptyCache ∨ ∃ names, names ≠ [] ∧ issue = .missingSections names) :=
  claim_C4_missing_sections_short_circuit [] (Or.inl rfl)

/-- C9: when `user_info`, `homes` and `price_info` are all present and all
dicts but the key sets of `homes` and `price_info` differ (in either
direction), `validate_cache_structure` reports the mismatch and returns
`valid = false` while leaving `needs_full_refresh = false`. -/
theorem claim_C9_keyset_mismatch
    (data_cache : List (String × JVal))
    (u hkvs pkvs : List (String × JVal))
    (hu : getKey data_cache "user_info" = some (.jdict u))
    (hh : getKey data_cache "homes" = some (.jdict hkvs))
    (hp : getKey data_cache "price_info" = some (.jdict pkvs))
    (hmis : (∃ k ∈ hkvs.map Prod.fst, k ∉ pkvs.map Prod.fst) ∨
            (∃ k ∈ pkvs.map Prod.fst, k ∉ hkvs.map Prod.fst)) :
    ∃ r, validate_cache_structure data_cache = .ok r ∧ r.valid = false ∧
      r.needs_full_refresh = false ∧
      ∃ ids, StructIssue.homesMissingFromPriceInfo ids ∈ r.structural_issues ∨
             StructIssue.unknownHomesInPriceInfo ids ∈ r.structural_issues := by
  have hne : data_cache.isEmpty = false := by
    cases data_cache with
    | nil => simp [getKey] at hu
    | cons a l => rfl
  have hcontains : ∀ (l : List String) (k : String), l.contains k = true ↔ k ∈ l := by
    intro l k
    exact List.elem_iff
  by_cases hmp : ((hkvs.map (fun p => p.1)).filter
      (fun k => !(pkvs.map (fun p => p.1)).contains k)).isEmpty = true
  · -- homes-side difference empty, so the price-info side must be nonempty
    have hep : ((pkvs.map (fun p => p.1)).filter
        (fun k => !(hkvs.map (fun p => p.1)).contains k)).isEmpty = false := by
      rcases hmis with ⟨k, hk, hnot⟩ | ⟨k, hk, hnot⟩
      · exfalso
        rw [List.isEmpty_iff] at hmp
        have : k ∈ ((hkvs.map (fun p => p.1)).filter
            (fun k => !(pkvs.map (fun p => p.1)).contains k)) := by
          rw [List.mem_filter]
          refine ⟨by simpa using hk, ?_⟩
          rw [Bool.not_eq_true', ← Bool.not_eq_true, hcontains]
          simpa using hnot
        rw [hmp] at this
        simp at this
      · have : k ∈ ((pkvs.map (fun p => p.1)).filter
            (fun k => !(hkvs.map (fun p => p.1)).contains k)) := by
          rw [List.mem_filter]
          refine ⟨by simpa using hk, ?_⟩
          rw [Bool.not_eq_true', ← Bool.not_eq_true, hcontains]
          simpa using hnot
        rcases hlist : ((pkvs.map (fun p => p.1)).filter
            (fun k => !(hkvs.map (fun p => p.1)).contains k)) with _ | ⟨a, l⟩
        · rw [hlist] at this
          simp at this
        · rw [hlist]
          rfl
    have hmain : validate_cache_structure data_cache =
        .ok (pkvs.foldl checkHomePriceStructure
          ⟨false, [.unknownHomesInPriceInfo ((pkvs.map (fun p => p.1)).filter
              (fun k => !(hkvs.map (fun p => p.1)).contains k))], [], false⟩) := by
      simp only [validate_cache_structure, hne, Bool.false_eq_true, if_false,
        List.filter_cons, List.filter_nil, hu, hh, hp, Option.isNone_some,
        Option.getD_some, JVal.isDict, if_true, List.isEmpty_nil, Bool.not_false,
        hmp, hep, Bool.not_true]
      simp
    have hpres := foldl_checkHome_preserves pkvs
      ⟨false, [.unknownHomesInPriceInfo ((pkvs.map (fun p => p.1)).filter
          (fun k => !(hkvs.map (fun p => p.1)).contains k))], [], false⟩
    refine ⟨_, hmain, ?_, ?_, ?_⟩
    · cases hv : (pkvs.foldl checkHomePriceStructure
          ⟨false, [.unknownHomesInPriceInfo ((pkvs.map (fun p => p.1)).filter
              (fun k => !(hkvs.map (fun p => p.1)).contains k))], [], false⟩).valid
      · rfl
      · exact absurd (hpres.2.2 hv) (by simp)
    · exact hpres.2.1
    · refine ⟨(pkvs.map (fun p => p.1)).filter
        (fun k => !(hkvs.map (fun p => p.1)).contains k), Or.inr ?_⟩
      rw [hpres.1]
      simp
  · -- homes-side difference nonempty
    rw [Bool.not_eq_true] at hmp
    by_cases hep : ((pkvs.map (fun p => p.1)).filter
        (fun k => !(hkvs.map (fun p => p.1)).contains k)).isEmpty = true
    · have hmain : validate_cache_structure data_cache =
          .ok (pkvs.foldl checkHomePriceStructure
            ⟨false, [.homesMissingFromPriceInfo ((hkvs.map (fun p => p.1)).filter
                (fun k => !(pkvs.map (fun p => p.1)).contains k))], [], false⟩) := by
        simp only [validate_cache_structure, hne, Bool.false_eq_true, if_false,
          List.filter_cons, List.filter_nil, hu, hh, hp, Option.isNone_some,
          Option.getD_some, JVal.isDict, if_true, List.isEmpty_nil, Bool.not_false,
          hmp, hep, Bool.not_true]
        simp
      have hpres := foldl_checkHome_preserves pkvs
        ⟨false, [.homesMissingFromPriceInfo ((hkvs.map (fun p => p.1)).filter
            (fun k => !(pkvs.map (fun p => p.1)).contains k))], [], false⟩
      refine ⟨_, hmain, ?_, ?_, ?_⟩
      · cases hv : (pkvs.foldl checkHomePriceStructure
            ⟨false, [.homesMissingFromPriceInfo ((hkvs.map (fun p => p.1)).filter
                (fun k => !(pkvs.map (fun p => p.1)).contains k))], [], false⟩).valid
        · rfl
        · exact absurd (hpres.2.2 hv) (by simp)
      · exact hpres.2.1
      · refine ⟨(hkvs.map (fun p => p.1)).filter
          (fun k => !(pkvs.map (fun p => p.1)).contains k), Or.inl ?_⟩
        rw [hpres.1]
        simp
    · rw [Bool.not_eq_true] at hep
      have hmain : validate_cache_structure data_cache =
          .ok (pkvs.foldl checkHomePriceStructure
            ⟨false, [.homesMissingFromPriceInfo ((hkvs.map (fun p => p.1)).filter
                (fun k => !(pkvs.map (fun p => p.1)).contains k)),
              .unknownHomesInPriceInfo ((pkvs.map (fun p => p.1)).filter
                (fun k => !(hkvs.map (fun p => p.1)).contains k))], [], false⟩) := by
        simp only [validate_cache_structure, hne, Bool.false_eq_true, if_false,
          List.filter_cons, List.filter_nil, hu, hh, hp, Option.isNone_some,
          Option.getD_some, JVal.isDict, if_true, List.isEmpty_nil, Bool.not_false,
          hmp, hep, Bool.not_true]
        simp
      have hpres := foldl_checkHome_preserves pkvs
        ⟨false, [.homesMissingFromPriceInfo ((hkvs.map (fun p => p.1)).filter
            (fun k => !(pkvs.map (fun p => p.1)).contains k)),
          .unknownHomesInPriceInfo ((pkvs.map (fun p => p.1)).filter
            (fun k => !(hkvs.map (fun p => p.1)).contains k))], [], false⟩
      refine ⟨_, hmain, ?_, ?_, ?_⟩
      · cases hv : (pkvs.foldl checkHomePriceStructure
            ⟨false, [.homesMissingFromPriceInfo ((hkvs.map (fun p => p.1)).filter
                (fun k => !(pkvs.map (fun p => p.1)).contains k)),
              .unknownHomesInPriceInfo ((pkvs.map (fun p => p.1)).filter
                (fun k => !(hkvs.map (fun p => p.1)).contains k))], [], false⟩).valid
        · rfl
        · exact absurd (hpres.2.2 hv) (by simp)
      · exact hpres.2.1
      · refine ⟨(hkvs.map (fun p => p.1)).filter
          (fun k => !(pkvs.map (fun p => p.1)).contains k), Or.inl ?_⟩
        rw [hpres.1]
        simp

/-- Witness for C9: one home in `homes`, none in `price_info`. -/
theorem claim_C9_witness :
    ∃ r, validate_cache_structure
        [("user_info", .jdict []), ("homes", .jdict [("h1", .jnull)]),
         ("price_info", .jdict [])] = .ok r ∧ r.valid = false ∧
      r.needs_full_refresh = false ∧
      ∃ ids, StructIssue.homesMissingFromPriceInfo ids ∈ r.structural_issues ∨
             StructIssue.unknownHomesInPriceInfo ids ∈ r.structural_issues :=
  claim_C9_keyset_mismatch _ [] [("h1", .jnull)] []
    (by rfl) (by rfl) (by rfl)
    (Or.inl ⟨"h1", by simp, by simp⟩)

/-! ### Fetch-state machine -/

/-- C1: `current_api_state` returns IDLE whenever the tomorrow-data flag
is set (any time of day); otherwise SEARCHING whenever identity/home data
or some home's today data is missing (any time of day); otherwise IDLE
before 13:00, WAITING from 13:00 until 15:00, and SEARCHING at or after
15:00. -/
theorem claim_C1_fetch_state (st : SchedState) (c : CoordCache)
    (now : LocalDateTime) :
    (st.tomorrow_data_available = true →
      current_api_state st c now = .idle) ∧
    (st.tomorrow_data_available = false →
      (userInfoTruthy c = false ∨ truthyOptList c.homes = false ∨
        is_missing_today_data c = true) →
      current_api_state st c now = .searching) ∧
    (st.tomorrow_data_available = false → userInfoTruthy c = true →
      truthyOptList c.homes = true → is_missing_today_data c = false →
      ((now.minuteOfDay < 13 * 60 → current_api_state st c now = .idle) ∧
       (13 * 60 ≤ now.minuteOfDay → now.minuteOfDay < 15 * 60 →
         current_api_state st c now = .waiting) ∧
       (15 * 60 ≤ now.minuteOfDay → current_api_state st c now = .searching))) := by
  unfold current_api_state TOMORROW_DATA_CHECK_START INTENSIVE_SEARCH_START
  refine ⟨?_, ?_, ?_⟩
  · intro h
    simp [h]
  · intro h hmiss
    rcases hmiss with hm | hm | hm <;> simp [h, hm]
  · intro h hu hh hm
    refine ⟨?_, ?_, ?_⟩
    · intro ht
      simp [h, hu, hh, hm, ht]
    · intro ht1 ht2
      have hnl : ¬ (now.minuteOfDay < 13 * 60) := by omega
      simp [h, hu, hh, hm, hnl, ht2]
    · intro ht
      have hnl : ¬ (now.minuteOfDay < 13 * 60) := by omega
      have hn2 : ¬ (now.minuteOfDay < 15 * 60) := by omega
      simp [h, hu, hh, hm, hnl, hn2]

/-- Witness for C1: flag set at 16:00 gives IDLE; missing `homes` at
09:00 gives SEARCHING; complete data gives IDLE at 09:00, WAITING at
14:00, SEARCHING at 16:00. -/
theorem claim_C1_witness :
    current_api_state ⟨true, true, none, none, 0⟩
      ⟨none, none, none, none⟩ ⟨0, 960⟩ = .idle ∧
    current_api_state ⟨true, false, none, none, 0⟩
      ⟨some ⟨[("name", 0)], none⟩, none, none, none⟩ ⟨0, 540⟩ = .searching ∧
    current_api_state ⟨true, false, none, none, 0⟩
      ⟨some ⟨[("name", 0)], none⟩, some [("h1", 0)],
       some [("h1", ⟨some [⟨some ⟨0, 0⟩, 0⟩], none, none⟩)], none⟩
      ⟨0, 540⟩ = .idle ∧
    current_api_state ⟨true, false, none, none, 0⟩
      ⟨some ⟨[("name", 0)], none⟩, some [("h1", 0)],
       some [("h1", ⟨some [⟨some ⟨0, 0⟩, 0⟩], none, none⟩)], none⟩
      ⟨0, 840⟩ = .waiting ∧
    current_api_state ⟨true, false, none, none, 0⟩
      ⟨some ⟨[("name", 0)], none⟩, some [("h1", 0)],
       some [("h1", ⟨some [⟨some ⟨0, 0⟩, 0⟩], none, none⟩)], none⟩
      ⟨0, 960⟩ = .searching := by
  refine ⟨?_, ?_, ?_, ?_, ?_⟩
  · exact (claim_C1_fetch_state _ _ _).1 rfl
  · exact (claim_C1_fetch_state _ _ _).2.1 rfl (Or.inr (Or.inl (by decide)))
  · exact ((claim_C1_fetch_state _ _ _).2.2 rfl (by decide) (by decide)
      (by decide)).1 (by decide)
  · exact ((claim_C1_fetch_state _ _ _).2.2 rfl (by decide) (by decide)
      (by decide)).2.1 (by decide) (by decide)
  · exact ((claim_C1_fetch_state _ _ _).2.2 rfl (by decide) (by decide)
      (by decide)).2.2 (by decide)

/-! ### Tomorrow-data availability -/

/-- The per-entry test inside `_check_tomorrow_data`, as a proposition. -/
theorem entry_on_day_iff (e : Entry) (d : Nat) :
    (match e.startsAt with
     | some pt => pt.day == d
     | none => false) = true ↔ ∃ pt, e.startsAt = some pt ∧ pt.day = d := by
  cases h : e.startsAt with
  | none => simp
  | some pt => simp [Nat.beq_eq_true_eq]

/-- The per-home test inside `_check_tomorrow_data`, as a proposition. -/
theorem homeHasTomorrow_iff (hp : HomePrices) (d : Nat) :
    homeHasTomorrow hp d = true ↔
      ∃ l, hp.tomorrow = some l ∧ l ≠ [] ∧
        ∃ e ∈ l, ∃ pt, e.startsAt = some pt ∧ pt.day = d := by
  unfold homeHasTomorrow
  cases h : hp.tomorrow with
  | none => simp
  | some l =>
      simp only [Bool.and_eq_true, List.any_eq_true, Option.some.injEq]
      constructor
      · rintro ⟨hne, e, he, hday⟩
        refine ⟨l, rfl, ?_, e, he, (entry_on_day_iff e d).mp hday⟩
        intro hc
        rw [hc] at hne
        simp at hne
      · rintro ⟨l2, hl2, hne, e, he, pt, hpt, hday⟩
        cases hl2
        refine ⟨?_, e, he, (entry_on_day_iff e d).mpr ⟨pt, hpt, hday⟩⟩
        simp [List.isEmpty_iff, hne]

/-- C7: the recomputed tomorrow-availability flag is true iff every home
in `price_info` has a non-empty `tomorrow` list containing an entry dated
on the calendar day after `now`; a single failing home makes it false. -/
theorem claim_C7_tomorrow_flag (pi : List (String × HomePrices)) (d : Nat) :
    computeTomorrowAvailable pi d = true ↔
      ∀ p ∈ pi, ∃ l, p.2.tomorrow = some l ∧ l ≠ [] ∧
        ∃ e ∈ l, ∃ pt, e.startsAt = some pt ∧ pt.day = d := by
  unfold computeTomorrowAvailable
  rw [List.all_eq_true]
  constructor
  · intro h p hp
    exact (homeHasTomorrow_iff p.2 d).mp (h p hp)
  · intro h p hp
    exact (homeHasTomorrow_iff p.2 d).mpr (h p hp)

/-- Witness for C7 in both directions: a satisfied and a failing cache. -/
theorem claim_C7_witness :
    computeTomorrowAvailable
      [("h1", ⟨none, some [⟨some ⟨5, 0⟩, 0⟩], none⟩)] 5 = true ∧
    computeTomorrowAvailable
      [("h1", ⟨none, some [⟨some ⟨5, 0⟩, 0⟩], none⟩),
       ("h2", ⟨none, some [], none⟩)] 5 = false := by
  constructor
  · exact (claim_C7_tomorrow_flag _ 5).mpr (by
      intro p hp
      simp only [List.mem_singleton] at hp
      subst hp
      exact ⟨[⟨some ⟨5, 0⟩, 0⟩], rfl, by simp, ⟨some ⟨5, 0⟩, 0⟩, by simp, ⟨5, 0⟩, rfl, rfl⟩)
  · cases hv : computeTomorrowAvailable
        [("h1", ⟨none, some [⟨some ⟨5, 0⟩, 0⟩], none⟩),
         ("h2", ⟨none, some [], none⟩)] 5
    · rfl
    · exfalso
      have := (claim_C7_tomorrow_flag _ 5).mp hv ("h2", ⟨none, some [], none⟩)
        (by simp)
      rcases this with ⟨l, hl, hne, _⟩
      simp only [Option.some.injEq] at hl
      exact hne hl.symm

/-- C10: with zero homes in `price_info` the availability recomputation is
vacuously true (so the tomorrow-check stage stores `true`), and once the
flag is set the state machine reports IDLE at every time of day and
`_should_fetch_data` never reaches the WAITING/SEARCHING branches. -/
theorem claim_C10_vacuous_tomorrow (d : Nat) (st : SchedState)
    (c : CoordCache) (now : LocalDateTime) :
    computeTomorrowAvailable [] d = true ∧
    (∀ data : CoordCache, data.price_info.getD [] = [] →
      (tomorrowState st data now).tomorrow_data_available = true) ∧
    (st.tomorrow_data_available = true →
      current_api_state st c now = .idle ∧
      ∀ b, fetchDecisionPath st c now ≠ .waitingCheck b ∧
           fetchDecisionPath st c now ≠ .searchingCheck b) := by
  refine ⟨rfl, ?_, ?_⟩
  · intro data hempty
    unfold tomorrowState
    simp [hempty, computeTomorrowAvailable]
  intro h
  have hstate : current_api_state st c now = .idle := by
    unfold current_api_state
    simp [h]
  refine ⟨hstate, ?_⟩
  intro b
  unfold fetchDecisionPath
  rw [hstate]
  by_cases hr : st.ready = true
  · by_cases hb : (!userInfoTruthy c || !truthyOptList c.homes) = true
    · simp [hr, hb]
    · by_cases hm : is_missing_today_data c = true
      · simp [hr, hb, hm]
      · simp [hr, hb, hm]
  · simp [hr]

/-- Witness for C10 with the flag set. -/
theorem claim_C10_witness :
    computeTomorrowAvailable [] 7 = true ∧
    (tomorrowState ⟨true, false, none, none, 0⟩ ⟨none, none, some [], none⟩
      ⟨7, 960⟩).tomorrow_data_available = true ∧
    (current_api_state ⟨true, true, none, none, 0⟩ ⟨none, none, some [], none⟩
        ⟨7, 960⟩ = .idle ∧
      ∀ b, fetchDecisionPath ⟨true, true, none, none, 0⟩
          ⟨none, none, some [], none⟩ ⟨7, 960⟩ ≠ .waitingCheck b ∧
        fetchDecisionPath ⟨true, true, none, none, 0⟩
          ⟨none, none, some [], none⟩ ⟨7, 960⟩ ≠ .searchingCheck b) :=
  ⟨(claim_C10_vacuous_tomorrow 7 ⟨true, true, none, none, 0⟩
      ⟨none, none, some [], none⟩ ⟨7, 960⟩).1,
   (claim_C10_vacuous_tomorrow 7 ⟨true, false, none, none, 0⟩
      ⟨none, none, some [], none⟩ ⟨7, 960⟩).2.1 ⟨none, none, some [], none⟩ rfl,
   (claim_C10_vacuous_tomorrow 7 ⟨true, true, none, none, 0⟩
      ⟨none, none, some [], none⟩ ⟨7, 960⟩).2.2 rfl⟩

/-! ### Midnight rotation -/

/-- C6: one rotation moves each home's `tomorrow` list into `today` and
clears `tomorrow`; a second rotation with no new data leaves `today`
empty for those homes. -/
theorem claim_C6_rotation_idempotent (c : CoordCache)
    (pi : List (String × HomePrices)) (k : String) (hp : HomePrices)
    (t : List Entry) (hc : c.price_info = some pi) (hm : (k, hp) ∈ pi)
    (ht : hp.tomorrow = some t) :
    (∃ pi1, (perform_midnight_rotation c).price_info = some pi1 ∧
      (k, { hp with today := some t, tomorrow := some [] }) ∈ pi1) ∧
    (∃ pi2,
      (perform_midnight_rotation (perform_midnight_rotation c)).price_info =
        some pi2 ∧
      (k, { hp with today := some [], tomorrow := some [] }) ∈ pi2) := by
  have hrot1 : rotateHome hp = { hp with today := some t, tomorrow := some [] } := by
    unfold rotateHome
    rw [ht]
  have hrot2 : rotateHome (rotateHome hp) =
      { hp with today := some [], tomorrow := some [] } := by
    rw [hrot1]
    rfl
  have h1p : (perform_midnight_rotation c).price_info =
      some (pi.map (fun p => (p.1, rotateHome p.2))) := by
    unfold perform_midnight_rotation
    rw [hc]
  have h2p : (perform_midnight_rotation (perform_midnight_rotation c)).price_info =
      some ((pi.map (fun p => (p.1, rotateHome p.2))).map
        (fun p => (p.1, rotateHome p.2))) := by
    unfold perform_midnight_rotation
    rw [hc]
  constructor
  · refine ⟨pi.map (fun p => (p.1, rotateHome p.2)), h1p, ?_⟩
    rw [← hrot1]
    exact List.mem_map_of_mem (fun p => (p.1, rotateHome p.2)) hm
  · refine ⟨_, h2p, ?_⟩
    rw [← hrot2]
    exact List.mem_map_of_mem (fun p => (p.1, rotateHome p.2))
      (List.mem_map_of_mem (fun p => (p.1, rotateHome p.2)) hm)

/-- Witness for C6 on a one-home cache. -/
theorem claim_C6_witness :
    (∃ pi1, (perform_midnight_rotation
        ⟨none, none, some [("h1", ⟨some [⟨some ⟨3, 0⟩, 0⟩],
          some [⟨some ⟨4, 0⟩, 1⟩], none⟩)], none⟩).price_info = some pi1 ∧
      ("h1", ({ today := some [⟨some ⟨4, 0⟩, 1⟩]
                tomorrow := some []
                range_prices := none } : HomePrices)) ∈ pi1) ∧
    (∃ pi2, (perform_midnight_rotation (perform_midnight_rotation
        ⟨none, none, some [("h1", ⟨some [⟨some ⟨3, 0⟩, 0⟩],
          some [⟨some ⟨4, 0⟩, 1⟩], none⟩)], none⟩)).price_info = some pi2 ∧
      ("h1", ({ today := some []
                tomorrow := some []
                range_prices := none } : HomePrices)) ∈ pi2) :=
  claim_C6_rotation_idempotent _ _ "h1"
    ⟨some [⟨some ⟨3, 0⟩, 0⟩], some [⟨some ⟨4, 0⟩, 1⟩], none⟩
    [⟨some ⟨4, 0⟩, 1⟩] rfl (by simp) rfl

/-! ### Staleness checker -/

/-- With a 10-minute-old update, only the quarter-hour-boundary rule of
`check_for_stale_cache` can fire. -/
theorem check_stale_ten_minutes (last now : LocalDateTime)
    (h : now.absMinutes - last.absMinutes = 10) :
    check_for_stale_cache (some last) now =
      (if now.minute / 15 ≠ last.minute / 15 then
        if now.minute % 15 < 5 then
          ⟨true, some .quarterHourBoundary, true⟩
        else ⟨false, none, false⟩
       else ⟨false, none, false⟩) := by
  simp only [check_for_stale_cache]
  rw [h]
  norm_num [API_SEVERELY_STALE_THRESHOLD_HOURS, API_STALE_THRESHOLD_MINUTES,
    MIN_QUARTER_HOUR_BOUNDARY_MINUTES]

/-- C3 (amended): a 13-hour-old update is severely stale at every `now`;
a 10-minute-old update during hour 09:00 is fresh unless `now` lies in
the first 5 minutes past a quarter-hour boundary (the boundary crossed by
the 10-minute gap), in which case it is reported stale with the
quarter-hour-boundary reason. -/
theorem claim_C3_staleness :
    (∀ last now : LocalDateTime,
      now.absMinutes = last.absMinutes + 13 * 60 →
      check_for_stale_cache (some last) now =
        ⟨true, some .severelyStale, true⟩) ∧
    (∀ d m : Nat, m < 60 →
      check_for_stale_cache (some ⟨d, 530 + m⟩) ⟨d, 540 + m⟩ =
        if m % 15 < 5 then ⟨true, some .quarterHourBoundary, true⟩
        else ⟨false, none, false⟩) := by
  constructor
  · intro last now h
    simp only [check_for_stale_cache]
    have h780 : now.absMinutes - last.absMinutes = 780 := by omega
    rw [h780]
    norm_num [API_SEVERELY_STALE_THRESHOLD_HOURS]
  · intro d m hm
    have h10 : (⟨d, 540 + m⟩ : LocalDateTime).absMinutes -
        (⟨d, 530 + m⟩ : LocalDateTime).absMinutes = 10 := by
      unfold LocalDateTime.absMinutes
      push_cast
      ring
    rw [check_stale_ten_minutes _ _ h10]
    unfold LocalDateTime.minute
    show (if (540 + m) % 60 / 15 ≠ (530 + m) % 60 / 15 then
            if (540 + m) % 60 % 15 < 5 then
              (⟨true, some .quarterHourBoundary, true⟩ : StaleResult)
            else ⟨false, none, false⟩
          else ⟨false, none, false⟩) =
        if m % 15 < 5 then ⟨true, some .quarterHourBoundary, true⟩
        else ⟨false, none, false⟩
    have h1 : (540 + m) % 60 = m := by omega
    rw [h1]
    by_cases hq : m % 15 < 5
    · have hneq : m / 15 ≠ (530 + m) % 60 / 15 := by omega
      simp [hneq, hq]
    · by_cases hb : m / 15 = (530 + m) % 60 / 15
      · simp [hb, hq]
      · simp [hb, hq]

/-- Counterexample for C3 as stated: at `now` = 09:00 with the last full
update 10 minutes earlier (08:50), the checker reports stale (the claim
asserts `isStale = false` for every `now` in hour 09:00). -/
theorem claim_C3_counterexample :
    (⟨1, 540⟩ : LocalDateTime).hour = 9 ∧
    (⟨1, 540⟩ : LocalDateTime).absMinutes -
      (⟨1, 530⟩ : LocalDateTime).absMinutes = 10 ∧
    check_for_stale_cache (some ⟨1, 530⟩) ⟨1, 540⟩ =
      ⟨true, some .quarterHourBoundary, true⟩ := by
  refine ⟨rfl, by decide, by decide⟩

/-- Witness for C3 (amended): severe staleness at a concrete pair, and a
fresh result at 09:10 with a 10-minute-old update. -/
theorem claim_C3_witness :
    check_for_stale_cache (some ⟨0, 120⟩) ⟨0, 900⟩ =
      ⟨true, some .severelyStale, true⟩ ∧
    check_for_stale_cache (some ⟨2, 540⟩) ⟨2, 550⟩ =
      ⟨false, none, false⟩ := by
  constructor
  · exact claim_C3_staleness.1 ⟨0, 120⟩ ⟨0, 900⟩ (by decide)
  · exact claim_C3_staleness.2 2 10 (by decide)

/-! ### Missed-midnight detection -/

/-- Claim-side predicate: a home counted as outdated by
`check_for_missed_midnight_transition` (non-empty `today` whose first
entry parses to a date strictly before `current`). -/
def isOutdatedHome (current : Nat) (hp : HomePrices) : Bool :=
  match firstTodayDate hp with
  | some d => d < current
  | none => false

/-- Claim-side function: the `days_old_by_home` record produced for one
home (only day-deltas strictly greater than 1 are recorded). -/
def midnightDays (current : Nat) (p : String × HomePrices) :
    Option (String × Nat) :=
  match firstTodayDate p.2 with
  | some d => if d < current ∧ 1 < current - d then some (p.1, current - d) else none
  | none => none

/-- Field-level description of one `midnightStep`. -/
theorem midnightStep_fields (current : Nat) (acc : MidnightResult)
    (p : String × HomePrices) :
    (midnightStep current acc p).needs_rotation =
      (acc.needs_rotation || isOutdatedHome current p.2) ∧
    (midnightStep current acc p).outdated_homes =
      acc.outdated_homes + (if isOutdatedHome current p.2 then 1 else 0) ∧
    (midnightStep current acc p).days_old_by_home =
      acc.days_old_by_home ++ (midnightDays current p).toList ∧
    (midnightStep current acc p).total_homes = acc.total_homes ∧
    (midnightStep current acc p).severely_outdated = acc.severely_outdated ∧
    (midnightStep current acc p).avg_days_old = acc.avg_days_old := by
  unfold midnightStep isOutdatedHome midnightDays
  cases hf : firstTodayDate p.2 with
  | none => simp
  | some d =>
      by_cases hlt : d < current
      · by_cases hdays : 1 < current - d
        · simp [hlt, hdays]
        · simp [hlt, hdays]
      · simp [hlt]

/-- Field-level description of the detection fold. -/
theorem midnight_foldl_fields (current : Nat)
    (pi : List (String × HomePrices)) (acc : MidnightResult) :
    (pi.foldl (midnightStep current) acc).needs_rotation =
      (acc.needs_rotation || pi.any (fun p => isOutdatedHome current p.2)) ∧
    (pi.foldl (midnightStep current) acc).outdated_homes =
      acc.outdated_homes + pi.countP (fun p => isOutdatedHome current p.2) ∧
    (pi.foldl (midnightStep current) acc).days_old_by_home =
      acc.days_old_by_home ++ pi.filterMap (midnightDays current) ∧
    (pi.foldl (midnightStep current) acc).total_homes = acc.total_homes ∧
    (pi.foldl (midnightStep current) acc).severely_outdated =
      acc.severely_outdated ∧
    (pi.foldl (midnightStep current) acc).avg_days_old = acc.avg_days_old := by
  induction pi generalizing acc with
  | nil => simp
  | cons hd tl ih =>
      have hstep := midnightStep_fields current acc hd
      have htl := ih (midnightStep current acc hd)
      rw [List.foldl_cons]
      refine ⟨?_, ?_, ?_, ?_, ?_, ?_⟩
      · rw [htl.1, hstep.1, List.any_cons, Bool.or_assoc]
      · rw [htl.2.1, hstep.2.1, List.countP_cons]
        omega
      · rw [htl.2.2.1, hstep.2.2.1, List.filterMap_cons, List.append_assoc]
        cases hmd : midnightDays current hd <;> simp
      · rw [htl.2.2.2.1, hstep.2.2.2.1]
      · rw [htl.2.2.2.2.1, hstep.2.2.2.2.1]
      · rw [htl.2.2.2.2.2, hstep.2.2.2.2.2]

/-- C5: a home with a non-empty `today` list dated strictly before
`current` forces `needs_rotation`; `outdated_homes` counts exactly those
homes; `days_old_by_home` records only day-deltas strictly greater than
one; `avg_days_old` is the mean over that record (0 when it is empty), so
it can be 0 - and `severely_outdated` false - while rotation is needed. -/
theorem claim_C5_missed_rotation (pi : List (String × HomePrices))
    (current : Nat) :
    ((∃ p ∈ pi, isOutdatedHome current p.2 = true) →
      (check_for_missed_midnight_transition pi current).needs_rotation = true) ∧
    (check_for_missed_midnight_transition pi current).outdated_homes =
      pi.countP (fun p => isOutdatedHome current p.2) ∧
    (check_for_missed_midnight_transition pi current).days_old_by_home =
      pi.filterMap (midnightDays current) ∧
    (check_for_missed_midnight_transition pi current).avg_days_old =
      (if (pi.filterMap (midnightDays current)).isEmpty then 0
       else ((pi.filterMap (midnightDays current)).map
          (fun p => (p.2 : Rat))).sum /
        ((pi.filterMap (midnightDays current)).length : Rat)) ∧
    (∃ pi0 c0,
      (check_for_missed_midnight_transition pi0 c0).needs_rotation = true ∧
      (check_for_missed_midnight_transition pi0 c0).avg_days_old = 0 ∧
      (check_for_missed_midnight_transition pi0 c0).severely_outdated = false) := by
  have hfold := midnight_foldl_fields current pi ⟨false, 0, pi.length, [], false, 0⟩
  have hdaysfold : (pi.foldl (midnightStep current)
      ⟨false, 0, pi.length, [], false, 0⟩).days_old_by_home =
      pi.filterMap (midnightDays current) := by
    rw [hfold.2.2.1, List.nil_append]
  have hexample :
      (check_for_missed_midnight_transition
        [("h0", ⟨some [⟨some ⟨4, 0⟩, 0⟩], none, none⟩)] 5).needs_rotation = true ∧
      (check_for_missed_midnight_transition
        [("h0", ⟨some [⟨some ⟨4, 0⟩, 0⟩], none, none⟩)] 5).avg_days_old = 0 ∧
      (check_for_missed_midnight_transition
        [("h0", ⟨some [⟨some ⟨4, 0⟩, 0⟩], none, none⟩)] 5).severely_outdated = false :=
    ⟨rfl, rfl, rfl⟩
  by_cases hde : (pi.filterMap (midnightDays current)).isEmpty = true
  · have heq : check_for_missed_midnight_transition pi current =
        pi.foldl (midnightStep current) ⟨false, 0, pi.length, [], false, 0⟩ := by
      simp only [check_for_missed_midnight_transition]
      rw [hdaysfold, hde]
      simp
    refine ⟨?_, ?_, ?_, ?_, ⟨_, _, hexample⟩⟩
    · rintro ⟨p, hp, hout⟩
      rw [heq, hfold.1, Bool.false_or, List.any_eq_true]
      exact ⟨p, hp, hout⟩
    · rw [heq, hfold.2.1, Nat.zero_add]
    · rw [heq, hdaysfold]
    · rw [heq, hfold.2.2.2.2.2, hde]
      rfl
  · rw [Bool.not_eq_true] at hde
    have heq : check_for_missed_midnight_transition pi current =
        { pi.foldl (midnightStep current) ⟨false, 0, pi.length, [], false, 0⟩ with
          avg_days_old :=
            ((((pi.filterMap (midnightDays current)).map (fun p => p.2)).sum : Nat) : Rat) /
              ((pi.filterMap (midnightDays current)).length : Rat)
          severely_outdated :=
            (((((pi.filterMap (midnightDays current)).map (fun p => p.2)).sum : Nat) : Rat) /
              ((pi.filterMap (midnightDays current)).length : Rat)) > 1 } := by
      simp only [check_for_missed_midnight_transition]
      rw [hdaysfold, hde]
      simp
    refine ⟨?_, ?_, ?_, ?_, ⟨_, _, hexample⟩⟩
    · rintro ⟨p, hp, hout⟩
      rw [heq]
      show (pi.foldl (midnightStep current)
        ⟨false, 0, pi.length, [], false, 0⟩).needs_rotation = true
      rw [hfold.1, Bool.false_or, List.any_eq_true]
      exact ⟨p, hp, hout⟩
    · rw [heq]
      show (pi.foldl (midnightStep current)
        ⟨false, 0, pi.length, [], false, 0⟩).outdated_homes = _
      rw [hfold.2.1, Nat.zero_add]
    · rw [heq]
      exact hdaysfold
    · rw [heq, hde]
      simp only [Bool.false_eq_true, if_false]
      show ((((pi.filterMap (midnightDays current)).map (fun p => p.2)).sum : Nat) : Rat) /
          ((pi.filterMap (midnightDays current)).length : Rat) = _
      rw [Nat.cast_list_sum, List.map_map]
      rfl

/-- Witness for C5: one home 1 day old, one home 4 days old. -/
theorem claim_C5_witness :
    (check_for_missed_midnight_transition
      [("h1", ⟨some [⟨some ⟨4, 0⟩, 0⟩], none, none⟩),
       ("h2", ⟨some [⟨some ⟨1, 0⟩, 0⟩], none, none⟩)] 5).needs_rotation = true ∧
    (check_for_missed_midnight_transition
      [("h1", ⟨some [⟨some ⟨4, 0⟩, 0⟩], none, none⟩),
       ("h2", ⟨some [⟨some ⟨1, 0⟩, 0⟩], none, none⟩)] 5).outdated_homes =
      ([("h1", (⟨some [⟨some ⟨4, 0⟩, 0⟩], none, none⟩ : HomePrices)),
        ("h2", ⟨some [⟨some ⟨1, 0⟩, 0⟩], none, none⟩)].countP
          (fun p => isOutdatedHome 5 p.2)) := by
  refine ⟨(claim_C5_missed_rotation _ 5).1
    ⟨("h1", ⟨some [⟨some ⟨4, 0⟩, 0⟩], none, none⟩), by simp, by decide⟩,
    (claim_C5_missed_rotation _ 5).2.1⟩

/-! ### DST fall-back validation -/

/-- An hour with positive frequency occurs among the day's hours. -/
theorem hourFreq_pos_mem (pts : List ParsedTime) (h : Nat)
    (hpos : 0 < hourFreq pts h) : h ∈ pts.map (fun pt => pt.hour) := by
  rw [hourFreq, List.countP_pos_iff] at hpos
  rcases hpos with ⟨pt, hpt, hh⟩
  rw [Nat.beq_eq_true_eq] at hh
  rw [List.mem_map]
  exact ⟨pt, hpt, hh⟩

/-- Membership in `duplicate_hours`. -/
theorem mem_duplicateHours_iff (pts : List ParsedTime) (h : Nat) :
    h ∈ duplicateHours pts ↔ 1 < hourFreq pts h := by
  unfold duplicateHours
  rw [List.mem_filter, List.mem_dedup]
  constructor
  · intro hx
    have := hx.2
    simpa using this
  · intro hx
    exact ⟨hourFreq_pos_mem pts h (Nat.lt_of_lt_of_le Nat.zero_lt_one
      (Nat.le_of_lt hx)), by simpa using hx⟩

/-- Source `duplicate_hours` has no repeats. -/
theorem duplicateHours_nodup (pts : List ParsedTime) :
    (duplicateHours pts).Nodup :=
  (List.nodup_dedup _).filter _

/-- A list without repeats whose members all equal `x`, and which
contains `x`, is `[x]`. -/
theorem nodup_all_eq_singleton {l : List Nat} {x : Nat} (hn : l.Nodup)
    (hx : x ∈ l) (hall : ∀ y ∈ l, y = x) : l = [x] := by
  cases l with
  | nil => simp at hx
  | cons a tl =>
      have ha : a = x := hall a (by simp)
      subst ha
      cases tl with
      | nil => rfl
      | cons b tl2 =>
          have hb : b = a := hall b (by simp)
          subst hb
          rw [List.nodup_cons] at hn
          exact absurd (by simp) hn.1

/-- Two distinct members force length at least 2. -/
theorem two_le_length_of_two_mem {l : List Nat} {a b : Nat} (hne : a ≠ b)
    (ha : a ∈ l) (hb : b ∈ l) : 2 ≤ l.length := by
  cases l with
  | nil => simp at ha
  | cons x tl =>
      cases tl with
      | nil =>
          simp only [List.mem_singleton] at ha hb
          exact absurd (ha.trans hb.symm) hne
      | cons y tl2 => simp [List.length_cons]

/-- C8: on a fall-back DST day, a today list with 25 entries for the
current date in which exactly one hour value appears exactly twice (all
others at most once) passes `validate_dst_transition_data` cleanly, while
a duplicated hour appearing 3 times, or two distinct duplicated hours,
triggers the fall-back duplicate issue. -/
theorem claim_C8_dst_fall_back (prices : List Entry) (tz : TzContext)
    (now : LocalDateTime)
    (hdst : is_dst_transition_day tz now = true)
    (hsf : is_spring_forward tz now = false) :
    ((todayTimes prices now.day).length = 25 →
      (∃ h0, hourFreq (todayTimes prices now.day) h0 = 2 ∧
        ∀ h, h ≠ h0 → hourFreq (todayTimes prices now.day) h ≤ 1) →
      validate_dst_transition_data prices tz now = ⟨true, []⟩) ∧
    ((∃ h, hourFreq (todayTimes prices now.day) h = 3) →
      ∃ ds, DstIssue.fallDuplicates ds ∈
        (validate_dst_transition_data prices tz now).issues) ∧
    ((∃ h1 h2, h1 ≠ h2 ∧ 2 ≤ hourFreq (todayTimes prices now.day) h1 ∧
        2 ≤ hourFreq (todayTimes prices now.day) h2) →
      ∃ ds, DstIssue.fallDuplicates ds ∈
        (validate_dst_transition_data prices tz now).issues) := by
  refine ⟨?_, ?_, ?_⟩
  · intro hcount ⟨h0, hfreq, hothers⟩
    have hdups : duplicateHours (todayTimes prices now.day) = [h0] := by
      apply nodup_all_eq_singleton (duplicateHours_nodup _)
      · rw [mem_duplicateHours_iff, hfreq]
        exact Nat.one_lt_two
      · intro y hy
        rw [mem_duplicateHours_iff] at hy
        by_contra hne
        exact absurd (hothers y hne) (by omega)
    unfold validate_dst_transition_data
    rw [hsf]
    simp only [Bool.false_eq_true, if_false]
    rw [hcount, hdups]
    simp [List.headD, hfreq, FALL_BACK_HOURS, DUPLICATE_HOUR_COUNT]
  · rintro ⟨h, hfreq3⟩
    have hmem : h ∈ duplicateHours (todayTimes prices now.day) := by
      rw [mem_duplicateHours_iff, hfreq3]
      omega
    have hdup : ((duplicateHours (todayTimes prices now.day)).length ≠ 1 ||
        hourFreq (todayTimes prices now.day)
          ((duplicateHours (todayTimes prices now.day)).headD 0) ≠
            DUPLICATE_HOUR_COUNT) = true := by
      by_cases hlen : (duplicateHours (todayTimes prices now.day)).length = 1
      · rcases List.length_eq_one.mp hlen with ⟨a, ha⟩
        have : h = a := by
          rw [ha] at hmem
          simpa using hmem
        subst this
        rw [ha]
        simp only [List.headD, hfreq3]
        simp [DUPLICATE_HOUR_COUNT]
      · simp [hlen]
    refine ⟨duplicateHours (todayTimes prices now.day), ?_⟩
    unfold validate_dst_transition_data
    rw [hsf]
    simp only [Bool.false_eq_true, if_false]
    rw [hdup]
    simp
  · rintro ⟨h1, h2, hne, hf1, hf2⟩
    have hm1 : h1 ∈ duplicateHours (todayTimes prices now.day) := by
      rw [mem_duplicateHours_iff]
      omega
    have hm2 : h2 ∈ duplicateHours (todayTimes prices now.day) := by
      rw [mem_duplicateHours_iff]
      omega
    have hlen : (duplicateHours (todayTimes prices now.day)).length ≠ 1 := by
      have := two_le_length_of_two_mem hne hm1 hm2
      omega
    refine ⟨duplicateHours (todayTimes prices now.day), ?_⟩
    unfold validate_dst_transition_data
    rw [hsf]
    simp only [Bool.false_eq_true, if_false]
    simp [hlen]

/-- A synthetic fall-back day: hours 0..23 once each plus hour 2 a second
time (25 entries, all dated on day 10). -/
def dstWitnessPrices : List Entry :=
  (List.range 24).map (fun h => ⟨some ⟨10, h⟩, 0⟩) ++ [⟨some ⟨10, 2⟩, 0⟩]

/-- The same day with hour 2 appearing three times (26 entries). -/
def dstWitnessPricesTriple : List Entry :=
  dstWitnessPrices ++ [⟨some ⟨10, 2⟩, 0⟩]

/-- A timezone that falls back between day 9 (offset 120) and day 10
(offset 60). -/
def dstWitnessTz : TzContext :=
  ⟨fun d => if d ≤ 9 then 120 else 60⟩

/-- Witness for C8: the 25-entry day validates cleanly; the triple
duplicate triggers the fall-back duplicate issue. -/
theorem claim_C8_witness :
    validate_dst_transition_data dstWitnessPrices dstWitnessTz ⟨10, 200⟩ =
      ⟨true, []⟩ ∧
    ∃ ds, DstIssue.fallDuplicates ds ∈
      (validate_dst_transition_data dstWitnessPricesTriple dstWitnessTz
        ⟨10, 200⟩).issues := by
  have hoth : ∀ h, h ≠ 2 →
      hourFreq (todayTimes dstWitnessPrices (10 : Nat)) h ≤ 1 := by
    intro h hne
    by_cases hlt : h < 24
    · interval_cases h <;> first | exact absurd rfl hne | decide
    · have h0 : hourFreq (todayTimes dstWitnessPrices (10 : Nat)) h = 0 := by
        have hpts : todayTimes dstWitnessPrices (10 : Nat) =
            (List.range 24).map (fun k => ⟨10, k⟩) ++ [⟨10, 2⟩] := by decide
        rw [hourFreq, hpts, List.countP_eq_zero]
        intro pt hpt
        simp only [List.mem_append, List.mem_map, List.mem_range,
          List.mem_singleton] at hpt
        rcases hpt with ⟨k, hk, rfl⟩ | rfl
        · simp only [Nat.beq_eq_true_eq]
          omega
        · simp only [Nat.beq_eq_true_eq]
          omega
      omega
  constructor
  · exact (claim_C8_dst_fall_back dstWitnessPrices dstWitnessTz ⟨10, 200⟩
      (by decide) (by decide)).1 (by decide) ⟨2, by decide, hoth⟩
  · exact (claim_C8_dst_fall_back dstWitnessPricesTriple dstWitnessTz ⟨10, 200⟩
      (by decide) (by decide)).2.1 ⟨2, by decide⟩

/-! ### Rate-limited fetch cycles -/

/-- What a fetch cycle can do to the live cache object before the final
commit: top-level bindings (`user_info`, `homes`) are never touched, and a
nested section absent from the cache stays absent (the working copy gets a
fresh dict instead). -/
def cachePreserved (old new : CoordCache) : Prop :=
  new.user_info = old.user_info ∧ new.homes = old.homes ∧
  (old.price_info = none → new.price_info = none) ∧
  (old.price_rating = none → new.price_rating = none)

/-- Source `cachePreserved` is reflexive. -/
theorem cachePreserved_refl (c : CoordCache) : cachePreserved c c :=
  ⟨rfl, rfl, fun h => h, fun h => h⟩

/-- Source `cachePreserved` composes. -/
theorem cachePreserved_trans {a b c : CoordCache}
    (h1 : cachePreserved a b) (h2 : cachePreserved b c) :
    cachePreserved a c :=
  ⟨h2.1.trans h1.1, h2.2.1.trans h1.2.1,
   fun h => h2.2.2.1 (h1.2.2.1 h),
   fun h => h2.2.2.2 (h1.2.2.2 h)⟩

/-- A price-info merge preserves the cache's top-level bindings and its
absent sections. -/
theorem applyPriceInfo_preserves (p : PriceResp) (data cache : CoordCache) :
    cachePreserved cache (applyPriceInfo p data cache).2 := by
  unfold applyPriceInfo
  cases p.homesData with
  | none => exact cachePreserved_refl cache
  | some homes =>
      cases hpi : cache.price_info with
      | none => exact cachePreserved_refl cache
      | some m =>
          exact ⟨rfl, rfl, (by intro hx; rw [hpi] at hx; cases hx), fun hx => hx⟩

/-- A price-rating merge preserves the cache's top-level bindings and its
absent sections. -/
theorem applyPriceRating_preserves (r : RatingResp) (period : RPeriod)
    (data cache : CoordCache) :
    cachePreserved cache (applyPriceRating r period data cache).2 := by
  unfold applyPriceRating
  cases r.homesData with
  | none => exact cachePreserved_refl cache
  | some homes =>
      cases hpr : cache.price_rating with
      | none => exact cachePreserved_refl cache
      | some m =>
          exact ⟨rfl, rfl, fun hx => hx, (by intro hx; rw [hpr] at hx; cases hx)⟩

/-- Source `finishError` produces a rate-limited `ok` only for `rateLimit`, and
then returns the current cache as both snapshot and cache. -/
theorem finishError_rl {e : ApiError} {cache : CoordCache} {st : SchedState}
    {snap c : CoordCache} {st2 : SchedState}
    (h : finishError e cache st = .ok snap c st2 true) :
    snap = c ∧ c = cache := by
  cases e with
  | auth => simp [finishError] at h
  | rateLimit =>
      simp only [finishError, CycleOutcome.ok.injEq] at h
      exact ⟨h.1.symm.trans h.2.1, h.2.1.symm⟩
  | comm => simp [finishError] at h
  | generic => simp [finishError] at h

/-- A rate-limited return out of `stageTomorrow` hands back the cache it
was given, unchanged, as the snapshot. -/
theorem stageTomorrow_rl {state : ApiState} {st : SchedState}
    {data cache : CoordCache} {now : LocalDateTime} {api : ApiBehavior}
    {snap c : CoordCache} {st2 : SchedState}
    (h : stageTomorrow state st data cache now api = .ok snap c st2 true) :
    snap = c ∧ c = cache := by
  unfold stageTomorrow at h
  split at h
  · simp [commitCycle] at h
  · split at h
    · simp [commitCycle] at h
    · split at h
      · split at h
        · exact finishError_rl h
        · simp [commitCycle] at h
      · simp [commitCycle] at h

/-- A rate-limited return out of `stageRatingsM` preserves the incoming
cache in the `cachePreserved` sense and equals the snapshot. -/
theorem stageRatingsM_rl {state : ApiState} {st : SchedState}
    {data cache : CoordCache} {now : LocalDateTime} {api : ApiBehavior}
    {snap c : CoordCache} {st2 : SchedState}
    (h : stageRatingsM state st data cache now api = .ok snap c st2 true) :
    snap = c ∧ cachePreserved cache c := by
  unfold stageRatingsM at h
  split at h
  · split at h
    · have := finishError_rl h
      exact ⟨this.1, this.2 ▸ cachePreserved_refl cache⟩
    · have := stageTomorrow_rl h
      exact ⟨this.1, this.2 ▸ applyPriceRating_preserves _ .monthly data cache⟩
  · have := stageTomorrow_rl h
    exact ⟨this.1, this.2 ▸ cachePreserved_refl cache⟩

/-- A rate-limited return out of `stageRatingsH` preserves the incoming
cache in the `cachePreserved` sense and equals the snapshot. -/
theorem stageRatingsH_rl {state : ApiState} {st : SchedState}
    {data cache : CoordCache} {now : LocalDateTime} {api : ApiBehavior}
    {snap c : CoordCache} {st2 : SchedState}
    (h : stageRatingsH state st data cache now api = .ok snap c st2 true) :
    snap = c ∧ cachePreserved cache c := by
  unfold stageRatingsH at h
  split at h
  · split at h
    · have := finishError_rl h
      exact ⟨this.1, this.2 ▸ cachePreserved_refl cache⟩
    · have := stageRatingsM_rl h
      exact ⟨this.1,
        cachePreserved_trans (applyPriceRating_preserves _ .hourly data cache) this.2⟩
  · exact stageRatingsM_rl h

/-- A rate-limited return out of `stageRatings` preserves the incoming
cache in the `cachePreserved` sense and equals the snapshot. -/
theorem stageRatings_rl {state : ApiState} {st : SchedState}
    {data cache : CoordCache} {now : LocalDateTime} {api : ApiBehavior}
    {snap c : CoordCache} {st2 : SchedState}
    (h : stageRatings state st data cache now api = .ok snap c st2 true) :
    snap = c ∧ cachePreserved cache c := by
  unfold stageRatings at h
  split at h
  · have := finishError_rl h
    exact ⟨this.1, this.2 ▸ cachePreserved_refl cache⟩
  · have := stageRatingsH_rl h
    exact ⟨this.1,
      cachePreserved_trans (applyPriceRating_preserves _ .daily data cache) this.2⟩

/-- A rate-limited return out of `stagePrice` preserves the incoming
cache in the `cachePreserved` sense; when the first price-info call
itself is the rate-limited one, the cache is returned fully unchanged. -/
theorem stagePrice_rl {state : ApiState} {st : SchedState}
    {data cache : CoordCache} {now : LocalDateTime} {api : ApiBehavior}
    {snap c : CoordCache} {st2 : SchedState}
    (h : stagePrice state st data cache now api = .ok snap c st2 true) :
    snap = c ∧ cachePreserved cache c ∧
      (api.priceInfo1 = .error .rateLimit → c = cache) := by
  unfold stagePrice at h
  cases hp : api.priceInfo1 with
  | error e =>
      rw [hp] at h
      have := finishError_rl h
      exact ⟨this.1, this.2 ▸ cachePreserved_refl cache, fun _ => this.2⟩
  | ok p =>
      rw [hp] at h
      have hP := applyPriceInfo_preserves p data cache
      have := stageRatings_rl h
      refine ⟨this.1, cachePreserved_trans hP this.2, ?_⟩
      intro hc
      cases hc

/-- A rate-limited return out of `stageBasic` preserves the incoming
cache; before the first merge the cache is returned fully unchanged. -/
theorem stageBasic_rl {st : SchedState} {data cache : CoordCache}
    {now : LocalDateTime} {api : ApiBehavior}
    {snap c : CoordCache} {st2 : SchedState}
    (h : stageBasic st data cache now api = .ok snap c st2 true) :
    snap = c ∧ cachePreserved cache c ∧
      (api.priceInfo1 = .error .rateLimit → c = cache) := by
  unfold stageBasic at h
  split at h
  · cases hu : api.userInfo with
    | error e =>
        rw [hu] at h
        have := finishError_rl h
        exact ⟨this.1, this.2 ▸ cachePreserved_refl cache, fun _ => this.2⟩
    | ok u =>
        rw [hu] at h
        exact stagePrice_rl h
  · exact stagePrice_rl h

/-- C2 (amended): a fetch cycle aborted by a rate-limit error never
propagates an exception - it returns the current cache as a soft-success
snapshot - and the cache's top-level `user_info`/`homes` bindings and its
absent sections are untouched; the whole cache is unchanged exactly when
the error struck before the first merge (e.g. at the user-info call or
the first price-info call).  However, merges performed before the error
remain visible in the cache because the working copy is shallow. -/
theorem claim_C2_rate_limit_soft_success (st : SchedState)
    (cache : CoordCache) (now : LocalDateTime) (api : ApiBehavior)
    (snap c : CoordCache) (st2 : SchedState)
    (h : updateCycle st cache now api = .ok snap c st2 true) :
    snap = c ∧ c.user_info = cache.user_info ∧ c.homes = cache.homes ∧
    (cache.price_info = none → c.price_info = none) ∧
    (cache.price_rating = none → c.price_rating = none) ∧
    (api.priceInfo1 = .error .rateLimit → c = cache) := by
  unfold updateCycle at h
  split at h
  · simp only [CycleOutcome.ok.injEq] at h
    exact absurd h.2.2.2 (by simp)
  · have := stageBasic_rl h
    exact ⟨this.1, this.2.1.1, this.2.1.2.1, this.2.1.2.2.1,
      this.2.1.2.2.2, this.2.2⟩

/-- Witness for C2 (amended): a first-call rate limit on an empty cache
returns the cache unchanged as a soft success. -/
theorem claim_C2_witness :
    ⟨none, none, none, none⟩ =
      (⟨none, none, none, none⟩ : CoordCache) ∧
    (⟨none, none, none, none⟩ : CoordCache).user_info =
      (⟨none, none, none, none⟩ : CoordCache).user_info ∧
    (⟨none, none, none, none⟩ : CoordCache).homes =
      (⟨none, none, none, none⟩ : CoordCache).homes ∧
    ((⟨none, none, none, none⟩ : CoordCache).price_info = none →
      (⟨none, none, none, none⟩ : CoordCache).price_info = none) ∧
    ((⟨none, none, none, none⟩ : CoordCache).price_rating = none →
      (⟨none, none, none, none⟩ : CoordCache).price_rating = none) ∧
    ((⟨.error .rateLimit, .ok ⟨none⟩, .ok ⟨none⟩, .ok ⟨none⟩, .ok ⟨none⟩,
        .ok ⟨none⟩⟩ : ApiBehavior).priceInfo1 = .error .rateLimit →
      (⟨none, none, none, none⟩ : CoordCache) =
        (⟨none, none, none, none⟩ : CoordCache)) :=
  claim_C2_rate_limit_soft_success ⟨true, false, none, none, 0⟩
    ⟨none, none, none, none⟩ ⟨10, 960⟩
    ⟨.error .rateLimit, .ok ⟨none⟩, .ok ⟨none⟩, .ok ⟨none⟩, .ok ⟨none⟩, .ok ⟨none⟩⟩
    ⟨none, none, none, none⟩ ⟨none, none, none, none⟩
    ⟨true, false, none, none, 0⟩ (by decide)

/-- Counterexample for C2 as stated: with the price-info section already
cached, a rate limit raised at the daily-rating call (after the price
merge) returns soft success but the cache has been mutated through the
shallow copy - its `today` list now holds the freshly fetched entry. -/
theorem claim_C2_counterexample :
    updateCycle ⟨true, false, none, none, 0⟩
      ⟨some ⟨[("name", 0)], none⟩, some [("h", 0)],
        some [("h", ⟨some [⟨some ⟨10, 0⟩, 1⟩], some [], none⟩)], none⟩
      ⟨10, 960⟩
      ⟨.ok ⟨none⟩, .ok ⟨some [⟨"h", none, some [⟨some ⟨10, 0⟩, 2⟩], none⟩]⟩,
        .ok ⟨none⟩, .error .rateLimit, .ok ⟨none⟩, .ok ⟨none⟩⟩ =
      .ok
        ⟨some ⟨[("name", 0)], none⟩, some [("h", 0)],
          some [("h", ⟨some [⟨some ⟨10, 0⟩, 2⟩], some [], none⟩)], none⟩
        ⟨some ⟨[("name", 0)], none⟩, some [("h", 0)],
          some [("h", ⟨some [⟨some ⟨10, 0⟩, 2⟩], some [], none⟩)], none⟩
        ⟨true, false, none, some ⟨10, 960⟩, 0⟩ true ∧
    (⟨some ⟨[("name", 0)], none⟩, some [("h", 0)],
        some [("h", ⟨some [⟨some ⟨10, 0⟩, 2⟩], some [], none⟩)],
        none⟩ : CoordCache) ≠
      ⟨some ⟨[("name", 0)], none⟩, some [("h", 0)],
        some [("h", ⟨some [⟨some ⟨10, 0⟩, 1⟩], some [], none⟩)], none⟩ := by
  exact ⟨by decide, by decide⟩

end TibberPrices
